import Mathlib

/-!
# VOPRF over a bilinear pairing: embedding of `elements.hpp` and `voprf.cpp`

The repository is a thin layer over the pairing library `mcl` (`mcl/bn256.hpp`).
The library is not part of the repository, so its primitives are taken as the
fields of a record `Mcl`; the facts about them that a proof needs are separate,
explicit hypotheses (`ScalarLaws`, `PairingLaws`, `CodecLaws`).  A small instance
`toyMcl` (the groups `Z/5Z`) shows the hypotheses are satisfiable and serves for
the concrete evaluations.  A field of `Mcl` is the value a call yields when it
returns; whether a call returns is not decided by the record (see below),
except for `Fr::inv`, whose outcome is a function of its argument.

C++ modelling conventions

* a pointer argument is an `Option`: `none` is `NULL`;
* an output argument `T** out` is `Option (Option T)`: the outer `none` is a
  `NULL` argument, `some h` a valid pointer whose target currently holds the
  handle `h` (itself `NULL` or an object); every entry point returns the status
  together with the content of each output location after the call;
* the content of a `std::vector` or `std::string` is a list;
* every operation of a `VOPRF_TRY` block that can throw (the construction of a
  `std::vector` or `std::string`, a `new` expression, a call into
  `elements.hpp`, which covers by-value copies and the library calls inside)
  is one step of the block; the argument `fault : Faults` gives, for the k-th
  step in evaluation order, the exception it raises (`std::bad_alloc` or any
  other) or `none` when it completes;
* the value stored by `Fr::setRand` is the argument `draw`;
* `Process` records whether `initPairing` has run; what the library computes
  and raises in a process state are functions of the state (`Process → Mcl`,
  `Process → Faults`), and the entry points themselves never read the state.
-/

namespace Voprf

/-- One `unsigned char`. -/
abbrev Byte := Fin 256

/-- The type `Bytes` of `base.hpp`: `vector<unsigned char>`. -/
abbrev Bytes := List Byte

/-- The exceptions `VOPRF_CATCH` tells apart: `std::bad_alloc` and any other. -/
inductive CppException where
  | bad_alloc
  | other
deriving DecidableEq

/-- What the steps of one `VOPRF_TRY` block raise: `fault k` is the exception
raised by the k-th step, `none` when the step completes. -/
abbrev Faults := Nat → Option CppException

/-! ## The pairing library -/

/-- The primitives of `mcl::bn` used by `elements.hpp`: the value each call
yields when it returns.  Whether a call returns or raises is given per call by
`Faults`; for `Fr::inv` the outcome itself, value or exception, is the field. -/
structure Mcl where
  /-- The scalar field `mcl::bn::Fr`. -/
  Fr : Type
  /-- The base field `mcl::bn::Fp`. -/
  Fp : Type
  /-- The group `mcl::bn::G1`. -/
  G1 : Type
  /-- The group `mcl::bn::G2`. -/
  G2 : Type
  /-- The target field `mcl::bn::Fp12`. -/
  Fp12 : Type
  /-- The operator `==` of `Fr`. -/
  decFr : DecidableEq Fr
  /-- The operator `==` of `G1`. -/
  decG1 : DecidableEq G1
  /-- The operator `==` of `G2`. -/
  decG2 : DecidableEq G2
  /-- The operator `==` of `Fp12`. -/
  decFp12 : DecidableEq Fp12
  /-- The scalar 0. -/
  frZero : Fr
  /-- The identity of `G1` (the point at infinity). -/
  g1Zero : G1
  /-- The outcome of `Fr::inv(y, x)`: the value `y`, or the exception raised. -/
  frInv : Fr → Except CppException Fr
  /-- The value `z` after `G1::mul(z, x, y)`. -/
  g1Mul : G1 → Fr → G1
  /-- The value `z` after `G2::mul(z, x, y)`. -/
  g2Mul : G2 → Fr → G2
  /-- The value of `t` after `t.setHashOf(m)`. -/
  setHashOf : Bytes → Fp
  /-- The value `P` after `mapToG1(P, t)`. -/
  mapToG1 : Fp → G1
  /-- The value `P` after `mapToG2(P, n)` for an integer seed `n`. -/
  mapToG2 : Int → G2
  /-- The value `e` after `pairing(e, P, Q)`. -/
  pairing : G1 → G2 → Fp12
  /-- The bytes `x.serialize(buf, maxBufSize)` writes to `buf` for `x : Fr`;
  their number is the returned length, 0 when the encoding does not fit. -/
  frSerialize : Fr → Nat → Bytes
  /-- The bytes written by `serialize` for `x : G1`. -/
  g1Serialize : G1 → Nat → Bytes
  /-- The bytes written by `serialize` for `x : G2`. -/
  g2Serialize : G2 → Nat → Bytes
  /-- The effect of `x.deserialize(buf, bufSize)` on a default-constructed
  `x : Fr`: the returned number of bytes read (0 on failure) and the value `x`
  holds afterwards. -/
  frDeserialize : Bytes → Nat × Fr
  /-- The effect of `deserialize` on a default-constructed `G1`. -/
  g1Deserialize : Bytes → Nat × G1
  /-- The effect of `deserialize` on a default-constructed `G2`. -/
  g2Deserialize : Bytes → Nat × G2

attribute [instance] Mcl.decFr Mcl.decG1 Mcl.decG2 Mcl.decFp12

/-- `G1` is a one-dimensional vector space over `Fr` (a group of prime order
acted on by its scalar field). -/
structure ScalarLaws (M : Mcl) : Prop where
  /-- Scalar multiplications commute. -/
  g1Mul_comm : ∀ (P : M.G1) (a b : M.Fr), M.g1Mul (M.g1Mul P a) b = M.g1Mul (M.g1Mul P b) a
  /-- On a non-zero scalar `Fr::inv` returns. -/
  frInv_returns : ∀ a : M.Fr, a ≠ M.frZero → ∃ b : M.Fr, M.frInv a = .ok b
  /-- Multiplying by a non-zero scalar and then by its inverse is the identity map. -/
  g1Mul_inv : ∀ (P : M.G1) (a b : M.Fr), a ≠ M.frZero → M.frInv a = .ok b →
    M.g1Mul (M.g1Mul P a) b = P
  /-- The scalar 0 sends every point to the identity. -/
  g1Mul_zero : ∀ P : M.G1, M.g1Mul P M.frZero = M.g1Zero
  /-- Every scalar fixes the identity. -/
  g1Mul_identity : ∀ a : M.Fr, M.g1Mul M.g1Zero a = M.g1Zero
  /-- Distinct scalars send a point other than the identity to distinct points. -/
  g1Mul_scalar_inj : ∀ (P : M.G1) (a b : M.Fr), P ≠ M.g1Zero → M.g1Mul P a = M.g1Mul P b → a = b
  /-- The map to `G1` never yields the identity. -/
  mapToG1_ne_zero : ∀ t : M.Fp, M.mapToG1 t ≠ M.g1Zero

/-- Bilinearity and non-degeneracy of the pairing, as far as verification uses them. -/
structure PairingLaws (M : Mcl) : Prop where
  /-- A scalar moves from one argument of the pairing to the other. -/
  pairing_swap : ∀ (P : M.G1) (Q : M.G2) (a : M.Fr),
    M.pairing (M.g1Mul P a) Q = M.pairing P (M.g2Mul Q a)
  /-- Pairing with the base point `mapToG2 1` is injective on `G1`. -/
  pairing_base_inj : ∀ P Q : M.G1,
    M.pairing P (M.mapToG2 1) = M.pairing Q (M.mapToG2 1) → P = Q

/-- The encodings fit the buffers of `elements.hpp` and `deserialize` reads back
what `serialize` wrote. -/
structure CodecLaws (M : Mcl) : Prop where
  /-- A scalar fits in 32 bytes: `serialize` into at least 32 bytes succeeds. -/
  fr_fits : ∀ (s : M.Fr) (n : Nat), 32 ≤ n → M.frSerialize s n ≠ []
  /-- A `G1` element fits in 128 bytes. -/
  g1_fits : ∀ (P : M.G1) (n : Nat), 128 ≤ n → M.g1Serialize P n ≠ []
  /-- A `G2` element fits in 128 bytes. -/
  g2_fits : ∀ (Q : M.G2) (n : Nat), 128 ≤ n → M.g2Serialize Q n ≠ []
  /-- Reading back a successfully written scalar. -/
  fr_read : ∀ (s : M.Fr) (n : Nat), M.frSerialize s n ≠ [] →
    M.frDeserialize (M.frSerialize s n) = ((M.frSerialize s n).length, s)
  /-- Reading back a successfully written `G1` element. -/
  g1_read : ∀ (P : M.G1) (n : Nat), M.g1Serialize P n ≠ [] →
    M.g1Deserialize (M.g1Serialize P n) = ((M.g1Serialize P n).length, P)
  /-- Reading back a successfully written `G2` element. -/
  g2_read : ∀ (Q : M.G2) (n : Nat), M.g2Serialize Q n ≠ [] →
    M.g2Deserialize (M.g2Serialize Q n) = ((M.g2Serialize Q n).length, Q)

/-! ## `elements.hpp` -/

/-- The class `VerificationKey`: a `G2` element. -/
structure VerificationKey (M : Mcl) where
  /-- The private member `v`. -/
  v : M.G2
deriving DecidableEq

/-- The class `SecretKey`: a scalar. -/
structure SecretKey (M : Mcl) where
  /-- The private member `s`. -/
  s : M.Fr
deriving DecidableEq

/-- The class `Point`: a `G1` element. -/
structure Point (M : Mcl) where
  /-- The private member `v`. -/
  v : M.G1
deriving DecidableEq

/-- The class `Pairing`: an `Fp12` element. -/
structure Pairing (M : Mcl) where
  /-- The private member `e`. -/
  e : M.Fp12
deriving DecidableEq

/-- The constant `VerificationKey::MAX_PK_SIZE`. -/
def VerificationKey.MAX_PK_SIZE : Nat := 128

/-- The constant `SecretKey::SK_SIZE`. -/
def SecretKey.SK_SIZE : Nat := 32

/-- The constant `Point::MAX_Pt_SIZE`. -/
def Point.MAX_Pt_SIZE : Nat := 128

/-- `VerificationKey::GetG2`. -/
def VerificationKey.GetG2 {M : Mcl} (pk : VerificationKey M) : M.G2 := pk.v

/-- `VerificationKey::ToBytes`: serialize into a 128-byte buffer, return the bytes written. -/
def VerificationKey.ToBytes {M : Mcl} (pk : VerificationKey M) : Bytes :=
  M.g2Serialize pk.v VerificationKey.MAX_PK_SIZE

/-- `VerificationKey::FromBytes`: the return value of `deserialize` is dropped. -/
def VerificationKey.FromBytes (M : Mcl) (bytes : Bytes) : VerificationKey M :=
  ⟨(M.g2Deserialize bytes).2⟩

/-- `VerificationKey::GetBase`: `mapToG2(baseG2, 1)`. -/
def VerificationKey.GetBase (M : Mcl) : M.G2 := M.mapToG2 1

/-- `SecretKey::ToBytes`: serialize into a 32-byte buffer. -/
def SecretKey.ToBytes {M : Mcl} (sk : SecretKey M) : Bytes :=
  M.frSerialize sk.s SecretKey.SK_SIZE

/-- `SecretKey::FromBytes`: the return value of `deserialize` is dropped. -/
def SecretKey.FromBytes (M : Mcl) (bytes : Bytes) : SecretKey M :=
  ⟨(M.frDeserialize bytes).2⟩

/-- `SecretKey::Keygen`: `s.setRand(); return SecretKey(s)`, where `draw` is the
value `setRand` stored. -/
def SecretKey.Keygen (M : Mcl) (draw : M.Fr) : SecretKey M := ⟨draw⟩

/-- `SecretKey::GetVerificationKey`: `G2::mul(vk, VerificationKey::GetBase(), s)`. -/
def SecretKey.GetVerificationKey {M : Mcl} (sk : SecretKey M) : VerificationKey M :=
  ⟨M.g2Mul (VerificationKey.GetBase M) sk.s⟩

/-- `SecretKey::GetFr`. -/
def SecretKey.GetFr {M : Mcl} (sk : SecretKey M) : M.Fr := sk.s

/-- `SecretKey::Inverse`: `Fr::inv(inv_s, s); return SecretKey(inv_s)`; there
is no test of `s`, an exception of `Fr::inv` leaves the function. -/
def SecretKey.Inverse {M : Mcl} (sk : SecretKey M) : Except CppException (SecretKey M) :=
  match M.frInv sk.s with
  | .error e => .error e
  | .ok inv_s => .ok ⟨inv_s⟩

/-- `Point::ToBytes`: serialize into a 128-byte buffer. -/
def Point.ToBytes {M : Mcl} (p : Point M) : Bytes :=
  M.g1Serialize p.v Point.MAX_Pt_SIZE

/-- `Point::FromBytes`: the return value of `deserialize` is dropped. -/
def Point.FromBytes (M : Mcl) (bytes : Bytes) : Point M :=
  ⟨(M.g1Deserialize bytes).2⟩

/-- `Point::HashToPoint`: `t.setHashOf(m); mapToG1(v, t)`. -/
def Point.HashToPoint (M : Mcl) (m : Bytes) : Point M :=
  ⟨M.mapToG1 (M.setHashOf m)⟩

/-- `Point::Mul`: `G1::mul(v, p.v, sk.GetFr())`. -/
def Point.Mul {M : Mcl} (p : Point M) (sk : SecretKey M) : Point M :=
  ⟨M.g1Mul p.v sk.GetFr⟩

/-- `Point::GetG1`. -/
def Point.GetG1 {M : Mcl} (p : Point M) : M.G1 := p.v

/-- `Pairing::Pair`: `pairing(e, x.GetG1(), pk.GetG2())`. -/
def Pairing.Pair {M : Mcl} (x : Point M) (pk : VerificationKey M) : Pairing M :=
  ⟨M.pairing x.GetG1 pk.GetG2⟩

/-! ## `voprf.cpp`: status codes, handles, exceptions -/

/-- The enumerator `VOPRF_SUCCESS`. -/
def VOPRF_SUCCESS : Int := 0
/-- The enumerator `VOPRF_ERROR_NULL_ARG`. -/
def VOPRF_ERROR_NULL_ARG : Int := -1
/-- The enumerator `VOPRF_ERROR_MALLOC`. -/
def VOPRF_ERROR_MALLOC : Int := -2
/-- The enumerator `VOPRF_ERROR_SERIALIZATION`. -/
def VOPRF_ERROR_SERIALIZATION : Int := -3
/-- The enumerator `VOPRF_ERROR_DESERIALIZATION`. -/
def VOPRF_ERROR_DESERIALIZATION : Int := -4
/-- The enumerator `VOPRF_ERROR_INVALID_BUFFER_SIZE`. -/
def VOPRF_ERROR_INVALID_BUFFER_SIZE : Int := -5
/-- The enumerator `VOPRF_ERROR_CPP_EXCEPTION`. -/
def VOPRF_ERROR_CPP_EXCEPTION : Int := -10

/-- A pointer to one of the structs `voprf_private_key_t`, `voprf_public_key_t`,
`voprf_point_t`: `none` is `NULL`, `some x` points to a struct wrapping `x`. -/
abbrev Handle (α : Type) := Option α

/-- The struct `voprf_private_key_t` behind a pointer. -/
abbrev voprf_private_key_t (M : Mcl) := Handle (SecretKey M)
/-- The struct `voprf_public_key_t` behind a pointer. -/
abbrev voprf_public_key_t (M : Mcl) := Handle (VerificationKey M)
/-- The struct `voprf_point_t` behind a pointer. -/
abbrev voprf_point_t (M : Mcl) := Handle (Point M)

/-- One step of a `VOPRF_TRY` block: when the step raises, control leaves the
block with the output locations as they are (`outs`); otherwise the block goes
on with `rest`. -/
def mayThrow {σ : Type} (raised : Option CppException) (outs : σ)
    (rest : Except CppException Int × σ) : Except CppException Int × σ :=
  match raised with
  | some e => (.error e, outs)
  | none => rest

/-- The macros `VOPRF_TRY` / `VOPRF_CATCH` around a block: the block ends with a
`return` of a status or with an exception, and in both cases the output
locations hold what the block had written until then. -/
def VOPRF_CATCH {σ : Type} (block : Except CppException Int × σ) : Int × σ :=
  match block.1 with
  | .ok status => (status, block.2)
  | .error .bad_alloc => (VOPRF_ERROR_MALLOC, block.2)
  | .error .other => (VOPRF_ERROR_CPP_EXCEPTION, block.2)

/-- The effect of `memcpy(buffer, bytes.data(), bytes.size())` on the caller's buffer. -/
def memcpy (buffer : Bytes) (bytes : Bytes) : Bytes :=
  bytes ++ buffer.drop bytes.length

/-! ## Global library initialization -/

/-- `voprf_private_key_generate`.  Steps: 0 `new voprf_private_key_t()`,
1 `SecretKey::Keygen()`. -/
def voprf_private_key_generate (M : Mcl) (fault : Faults) (draw : M.Fr)
    (key : Option (voprf_private_key_t M)) : Int × Option (voprf_private_key_t M) :=
  match key with
  | none => (VOPRF_ERROR_NULL_ARG, none)
  | some old =>
    VOPRF_CATCH (
      mayThrow (fault 0) (some old) (
      mayThrow (fault 1) (some old) (
        let new_key := SecretKey.Keygen M draw
        (.ok VOPRF_SUCCESS, some (some new_key)))))

/-- `voprf_private_key_get_public_key`.  Steps: 0 `new voprf_public_key_t()`,
1 `GetVerificationKey()`. -/
def voprf_private_key_get_public_key (M : Mcl) (fault : Faults)
    (private_key : voprf_private_key_t M) (public_key : Option (voprf_public_key_t M)) :
    Int × Option (voprf_public_key_t M) :=
  match private_key, public_key with
  | none, _ => (VOPRF_ERROR_NULL_ARG, public_key)
  | some _, none => (VOPRF_ERROR_NULL_ARG, none)
  | some sk, some old =>
    VOPRF_CATCH (
      mayThrow (fault 0) (some old) (
      mayThrow (fault 1) (some old) (
        let new_pk := sk.GetVerificationKey
        (.ok VOPRF_SUCCESS, some (some new_pk)))))

/-- `voprf_private_key_get_byte_size`.  Step 0: `ToBytes()`, which serializes
and builds the vector. -/
def voprf_private_key_get_byte_size (M : Mcl) (fault : Faults) (key : voprf_private_key_t M)
    (size : Option Nat) : Int × Option Nat :=
  match key, size with
  | none, _ => (VOPRF_ERROR_NULL_ARG, size)
  | some _, none => (VOPRF_ERROR_NULL_ARG, none)
  | some sk, some old =>
    VOPRF_CATCH (
      mayThrow (fault 0) (some old) (
        (.ok VOPRF_SUCCESS, some sk.ToBytes.length)))

/-- `voprf_private_key_to_bytes`.  Step 0: `ToBytes()`, which serializes and
builds the vector. -/
def voprf_private_key_to_bytes (M : Mcl) (fault : Faults) (key : voprf_private_key_t M)
    (buffer : Option Bytes) (buffer_len : Nat) : Int × Option Bytes :=
  match key, buffer with
  | none, _ => (VOPRF_ERROR_NULL_ARG, buffer)
  | some _, none => (VOPRF_ERROR_NULL_ARG, none)
  | some sk, some buf =>
    VOPRF_CATCH (
      mayThrow (fault 0) (some buf) (
        let bytes := sk.ToBytes
        if bytes.length > buffer_len then
          (.ok VOPRF_ERROR_INVALID_BUFFER_SIZE, some buf)
        else
          (.ok VOPRF_SUCCESS, some (memcpy buf bytes))))

/-- `voprf_private_key_from_bytes`.  Steps: 0 the vector built from the first
`buffer_len` bytes at `buffer`, 1 `new voprf_private_key_t()`, 2 `FromBytes(bytes)`
(copy of the vector, `deserialize`). -/
def voprf_private_key_from_bytes (M : Mcl) (fault : Faults)
    (key : Option (voprf_private_key_t M)) (buffer : Option Bytes) (buffer_len : Nat) :
    Int × Option (voprf_private_key_t M) :=
  match key, buffer with
  | none, _ => (VOPRF_ERROR_NULL_ARG, none)
  | some old, none => (VOPRF_ERROR_NULL_ARG, some old)
  | some old, some buf =>
    VOPRF_CATCH (
      mayThrow (fault 0) (some old) (
        let bytes := buf.take buffer_len
        mayThrow (fault 1) (some old) (
        mayThrow (fault 2) (some old) (
          let new_key := SecretKey.FromBytes M bytes
          (.ok VOPRF_SUCCESS, some (some new_key))))))

/-! ## `voprf.cpp`: public keys -/

/-- `voprf_public_key_get_byte_size`.  Step 0: `ToBytes()`. -/
def voprf_public_key_get_byte_size (M : Mcl) (fault : Faults) (key : voprf_public_key_t M)
    (size : Option Nat) : Int × Option Nat :=
  match key, size with
  | none, _ => (VOPRF_ERROR_NULL_ARG, size)
  | some _, none => (VOPRF_ERROR_NULL_ARG, none)
  | some pk, some old =>
    VOPRF_CATCH (
      mayThrow (fault 0) (some old) (
        (.ok VOPRF_SUCCESS, some pk.ToBytes.length)))

/-- `voprf_public_key_to_bytes`.  Step 0: `ToBytes()`. -/
def voprf_public_key_to_bytes (M : Mcl) (fault : Faults) (key : voprf_public_key_t M)
    (buffer : Option Bytes) (buffer_len : Nat) : Int × Option Bytes :=
  match key, buffer with
  | none, _ => (VOPRF_ERROR_NULL_ARG, buffer)
  | some _, none => (VOPRF_ERROR_NULL_ARG, none)
  | some pk, some buf =>
    VOPRF_CATCH (
      mayThrow (fault 0) (some buf) (
        let bytes := pk.ToBytes
        if bytes.length > buffer_len then
          (.ok VOPRF_ERROR_INVALID_BUFFER_SIZE, some buf)
        else
          (.ok VOPRF_SUCCESS, some (memcpy buf bytes))))

/-- `voprf_public_key_from_bytes`.  Steps: 0 the vector, 1 `new
voprf_public_key_t()`, 2 `FromBytes(bytes)`. -/
def voprf_public_key_from_bytes (M : Mcl) (fault : Faults)
    (key : Option (voprf_public_key_t M)) (buffer : Option Bytes) (buffer_len : Nat) :
    Int × Option (voprf_public_key_t M) :=
  match key, buffer with
  | none, _ => (VOPRF_ERROR_NULL_ARG, none)
  | some old, none => (VOPRF_ERROR_NULL_ARG, some old)
  | some old, some buf =>
    VOPRF_CATCH (
      mayThrow (fault 0) (some old) (
        let bytes := buf.take buffer_len
        mayThrow (fault 1) (some old) (
        mayThrow (fault 2) (some old) (
          let new_key := VerificationKey.FromBytes M bytes
          (.ok VOPRF_SUCCESS, some (some new_key))))))

/-! ## `voprf.cpp`: points -/

/-- `voprf_point_get_byte_size`.  Step 0: `ToBytes()`. -/
def voprf_point_get_byte_size (M : Mcl) (fault : Faults) (point : voprf_point_t M)
    (size : Option Nat) : Int × Option Nat :=
  match point, size with
  | none, _ => (VOPRF_ERROR_NULL_ARG, size)
  | some _, none => (VOPRF_ERROR_NULL_ARG, none)
  | some p, some old =>
    VOPRF_CATCH (
      mayThrow (fault 0) (some old) (
        (.ok VOPRF_SUCCESS, some p.ToBytes.length)))

/-- `voprf_point_to_bytes`.  Step 0: `ToBytes()`. -/
def voprf_point_to_bytes (M : Mcl) (fault : Faults) (point : voprf_point_t M)
    (buffer : Option Bytes) (buffer_len : Nat) : Int × Option Bytes :=
  match point, buffer with
  | none, _ => (VOPRF_ERROR_NULL_ARG, buffer)
  | some _, none => (VOPRF_ERROR_NULL_ARG, none)
  | some p, some buf =>
    VOPRF_CATCH (
      mayThrow (fault 0) (some buf) (
        let bytes := p.ToBytes
        if bytes.length > buffer_len then
          (.ok VOPRF_ERROR_INVALID_BUFFER_SIZE, some buf)
        else
          (.ok VOPRF_SUCCESS, some (memcpy buf bytes))))

/-- `voprf_point_from_bytes`.  Steps: 0 the vector, 1 `new voprf_point_t()`,
2 `FromBytes(bytes)`. -/
def voprf_point_from_bytes (M : Mcl) (fault : Faults)
    (point : Option (voprf_point_t M)) (buffer : Option Bytes) (buffer_len : Nat) :
    Int × Option (voprf_point_t M) :=
  match point, buffer with
  | none, _ => (VOPRF_ERROR_NULL_ARG, none)
  | some old, none => (VOPRF_ERROR_NULL_ARG, some old)
  | some old, some buf =>
    VOPRF_CATCH (
      mayThrow (fault 0) (some old) (
        let bytes := buf.take buffer_len
        mayThrow (fault 1) (some old) (
        mayThrow (fault 2) (some old) (
          let new_point := Point.FromBytes M bytes
          (.ok VOPRF_SUCCESS, some (some new_point))))))

/-- `voprf_point_equal`.  Step 0: the comparison `p1->p == p2->p`. -/
def voprf_point_equal (M : Mcl) (fault : Faults) (p1 p2 : voprf_point_t M)
    (equal : Option Bool) : Int × Option Bool :=
  match p1, p2, equal with
  | none, _, _ => (VOPRF_ERROR_NULL_ARG, equal)
  | some _, none, _ => (VOPRF_ERROR_NULL_ARG, equal)
  | some _, some _, none => (VOPRF_ERROR_NULL_ARG, none)
  | some a, some b, some old =>
    VOPRF_CATCH (
      mayThrow (fault 0) (some old) (
        (.ok VOPRF_SUCCESS, some (decide (a = b)))))

/-! ## `voprf.cpp`: the protocol -/

/-- `voprf_blind`: `msg` is the memory at the message pointer, of which the
first `msg_len` bytes make the string.  Steps: 0 the string `msg_str`,
1 `SecretKey::Keygen()`, 2 `HashToPoint(msg_str)` (copy of the string, hash,
map), 3 `Point::Mul`, 4 `new voprf_private_key_t{r}`, 5 `new voprf_point_t{x}`;
the two handles are stored after all of them. -/
def voprf_blind (M : Mcl) (fault : Faults) (draw : M.Fr)
    (msg : Option Bytes) (msg_len : Nat)
    (blinding_factor : Option (voprf_private_key_t M))
    (blinded_point : Option (voprf_point_t M)) :
    Int × Option (voprf_private_key_t M) × Option (voprf_point_t M) :=
  match msg, blinding_factor, blinded_point with
  | none, _, _ => (VOPRF_ERROR_NULL_ARG, blinding_factor, blinded_point)
  | some _, none, _ => (VOPRF_ERROR_NULL_ARG, none, blinded_point)
  | some _, some bf, none => (VOPRF_ERROR_NULL_ARG, some bf, none)
  | some mem, some bf, some bp =>
    VOPRF_CATCH (
      mayThrow (fault 0) (some bf, some bp) (
        let msg_str := mem.take msg_len
        mayThrow (fault 1) (some bf, some bp) (
          let r := SecretKey.Keygen M draw
          mayThrow (fault 2) (some bf, some bp) (
          mayThrow (fault 3) (some bf, some bp) (
            let x := Point.Mul (Point.HashToPoint M msg_str) r
            mayThrow (fault 4) (some bf, some bp) (
            mayThrow (fault 5) (some bf, some bp) (
              (.ok VOPRF_SUCCESS, some (some r), some (some x)))))))))

/-- `voprf_evaluate`.  Steps: 0 `Point::Mul`, 1 `new voprf_point_t{result}`. -/
def voprf_evaluate (M : Mcl) (fault : Faults)
    (sk : voprf_private_key_t M) (blinded_point : voprf_point_t M)
    (evaluated_point : Option (voprf_point_t M)) : Int × Option (voprf_point_t M) :=
  match sk, blinded_point, evaluated_point with
  | none, _, _ => (VOPRF_ERROR_NULL_ARG, evaluated_point)
  | some _, none, _ => (VOPRF_ERROR_NULL_ARG, evaluated_point)
  | some _, some _, none => (VOPRF_ERROR_NULL_ARG, none)
  | some k, some b, some old =>
    VOPRF_CATCH (
      mayThrow (fault 0) (some old) (
        let result := Point.Mul b k
        mayThrow (fault 1) (some old) (
          (.ok VOPRF_SUCCESS, some (some result)))))

/-- `voprf_unblind`.  First `blinding_factor->sk.Inverse()`, whose outcome is
that of `Fr::inv`; then the steps 0 `Point::Mul`, 1 `new voprf_point_t{result}`. -/
def voprf_unblind (M : Mcl) (fault : Faults)
    (evaluated_point : voprf_point_t M) (blinding_factor : voprf_private_key_t M)
    (final_output : Option (voprf_point_t M)) : Int × Option (voprf_point_t M) :=
  match evaluated_point, blinding_factor, final_output with
  | none, _, _ => (VOPRF_ERROR_NULL_ARG, final_output)
  | some _, none, _ => (VOPRF_ERROR_NULL_ARG, final_output)
  | some _, some _, none => (VOPRF_ERROR_NULL_ARG, none)
  | some ev, some r, some old =>
    VOPRF_CATCH (
      match r.Inverse with
      | .error e => (.error e, some old)
      | .ok r_inv =>
        mayThrow (fault 0) (some old) (
          let result := Point.Mul ev r_inv
          mayThrow (fault 1) (some old) (
            (.ok VOPRF_SUCCESS, some (some result)))))

/-- `voprf_verify`.  Steps: 0 the string `msg_str`, 1 `HashToPoint(msg_str)`,
2 `Pairing::Pair` for `e1`, 3 `VerificationKey::GetBase()`, 4 `Pairing::Pair`
for `e2`, 5 the comparison `e1 == e2`; the result is stored after all of them. -/
def voprf_verify (M : Mcl) (fault : Faults) (pk : voprf_public_key_t M)
    (input_msg : Option Bytes) (input_msg_len : Nat)
    (output_point : voprf_point_t M) (result : Option Bool) : Int × Option Bool :=
  match pk, input_msg, output_point, result with
  | none, _, _, _ => (VOPRF_ERROR_NULL_ARG, result)
  | some _, none, _, _ => (VOPRF_ERROR_NULL_ARG, result)
  | some _, some _, none, _ => (VOPRF_ERROR_NULL_ARG, result)
  | some _, some _, some _, none => (VOPRF_ERROR_NULL_ARG, none)
  | some k, some mem, some out, some old =>
    VOPRF_CATCH (
      mayThrow (fault 0) (some old) (
        let msg_str := mem.take input_msg_len
        mayThrow (fault 1) (some old) (
        mayThrow (fault 2) (some old) (
          let e1 := Pairing.Pair (Point.HashToPoint M msg_str) k
          mayThrow (fault 3) (some old) (
          mayThrow (fault 4) (some old) (
            let e2 := Pairing.Pair out ⟨VerificationKey.GetBase M⟩
            mayThrow (fault 5) (some old) (
              (.ok VOPRF_SUCCESS, some (decide (e1 = e2))))))))))

/-! ## Instances of the library and of the faults -/

/-- The groups `Z/5Z` in the place of the curve groups: scalars act by
multiplication, the pairing is the product, an encoding is one byte; `Fr::inv`
returns on every argument, with 0 at 0. -/
@[reducible]
def toyMcl : Mcl where
  Fr := Fin 5
  Fp := Fin 4
  G1 := Fin 5
  G2 := Fin 5
  Fp12 := Fin 5
  decFr := inferInstance
  decG1 := inferInstance
  decG2 := inferInstance
  decFp12 := inferInstance
  frZero := 0
  g1Zero := 0
  frInv := fun a => .ok (a * a * a)
  g1Mul := fun P a => P * a
  g2Mul := fun Q a => Q * a
  setHashOf := fun m => Fin.ofNat (m.foldl (fun acc b => acc + b.val + 1) 0)
  mapToG1 := fun t => Fin.ofNat (t.val + 1)
  mapToG2 := fun n => Fin.ofNat (n.natAbs % 4 + 1)
  pairing := fun P Q => P * Q
  frSerialize := fun s n => if 1 ≤ n then [Fin.ofNat s.val] else []
  g1Serialize := fun P n => if 1 ≤ n then [Fin.ofNat P.val] else []
  g2Serialize := fun Q n => if 1 ≤ n then [Fin.ofNat Q.val] else []
  frDeserialize := fun bytes =>
    match bytes with
    | b :: _ => if b.val < 5 then (1, Fin.ofNat b.val) else (0, 0)
    | [] => (0, 0)
  g1Deserialize := fun bytes =>
    match bytes with
    | b :: _ => if b.val < 5 then (1, Fin.ofNat b.val) else (0, 0)
    | [] => (0, 0)
  g2Deserialize := fun bytes =>
    match bytes with
    | b :: _ => if b.val < 5 then (1, Fin.ofNat b.val) else (0, 0)
    | [] => (0, 0)

/-- No step raises. -/
def noFault : Faults := fun _ => none

/-- The step `k` raises `e`, every other step completes. -/
def faultAt (k : Nat) (e : CppException) : Faults :=
  fun i => if i = k then some e else none

theorem toyMcl_scalarLaws : ScalarLaws toyMcl where
  g1Mul_comm := by decide
  frInv_returns := fun a _ => ⟨a * a * a, rfl⟩
  g1Mul_inv := by
    intro P a b ha hb
    have hb' : a * a * a = b := by injection hb
    subst hb'
    clear hb
    revert P a
    decide
  g1Mul_zero := by decide
  g1Mul_identity := by decide
  g1Mul_scalar_inj := by decide
  mapToG1_ne_zero := by decide

theorem toyMcl_pairingLaws : PairingLaws toyMcl where
  pairing_swap := by decide
  pairing_base_inj := by decide

theorem toyMcl_codecLaws : CodecLaws toyMcl where
  fr_fits := by intro s n h; simp; omega
  g1_fits := by intro s n h; simp; omega
  g2_fits := by intro s n h; simp; omega
  fr_read := by
    intro s n h
    by_cases hn : 1 ≤ n
    · simp only [hn, if_true]; clear h; revert s; decide
    · simp [hn] at h
  g1_read := by
    intro s n h
    by_cases hn : 1 ≤ n
    · simp only [hn, if_true]; clear h; revert s; decide
    · simp [hn] at h
  g2_read := by
    intro s n h
    by_cases hn : 1 ≤ n
    · simp only [hn, if_true]; clear h; revert s; decide
    · simp [hn] at h

/-! ## Helper lemmas on the classes and on blocks -/

/-- On a non-zero scalar `SecretKey::Inverse` returns. -/
theorem inverse_returns {M : Mcl} (hM : ScalarLaws M) (r : SecretKey M)
    (hr : r.s ≠ M.frZero) : ∃ b : M.Fr, M.frInv r.s = .ok b ∧ r.Inverse = .ok ⟨b⟩ := by
  obtain ⟨b, hb⟩ := hM.frInv_returns r.s hr
  exact ⟨b, hb, by simp [SecretKey.Inverse, hb]⟩

/-- Blinding with a non-zero `r`, evaluating with `sk` and unblinding with the
inverse of `r` gives `Mul(H, sk)`. -/
theorem mul_unblind_evaluate_blind {M : Mcl} (hM : ScalarLaws M)
    (H : Point M) (sk r : SecretKey M) (b : M.Fr) (hr : r.s ≠ M.frZero)
    (hb : M.frInv r.s = .ok b) :
    Point.Mul (Point.Mul (Point.Mul H r) sk) ⟨b⟩ = Point.Mul H sk := by
  simp only [Point.Mul, SecretKey.GetFr]
  rw [hM.g1Mul_comm H.v r.s sk.s, hM.g1Mul_inv _ _ _ hr hb]

/-- The two pairings of `Verify` agree on the key of `sk` and the point `Mul(H, sk)`. -/
theorem pair_key_eq_pair_base {M : Mcl} (hP : PairingLaws M) (H : Point M) (sk : SecretKey M) :
    Pairing.Pair H sk.GetVerificationKey
      = Pairing.Pair (Point.Mul H sk) ⟨VerificationKey.GetBase M⟩ := by
  simp only [Pairing.Pair, Point.GetG1, VerificationKey.GetG2, SecretKey.GetVerificationKey,
    Point.Mul, SecretKey.GetFr]
  rw [hP.pairing_swap]

/-- A step in front of a block keeps the frame property of the block: a
non-zero status leaves the output locations as they were. -/
theorem catch_mayThrow_frame {σ : Type} (raised : Option CppException) (outs : σ)
    (rest : Except CppException Int × σ)
    (h : (VOPRF_CATCH rest).1 ≠ 0 → (VOPRF_CATCH rest).2 = outs) :
    (VOPRF_CATCH (mayThrow raised outs rest)).1 ≠ 0 →
      (VOPRF_CATCH (mayThrow raised outs rest)).2 = outs := by
  cases raised with
  | none => exact h
  | some e => cases e <;> simp [mayThrow, VOPRF_CATCH]

/-- A step in front of a block adds only the statuses of `VOPRF_CATCH`. -/
theorem catch_mayThrow_ne {σ : Type} (raised : Option CppException) (outs : σ)
    (rest : Except CppException Int × σ) (c : Int)
    (h2 : VOPRF_ERROR_MALLOC ≠ c) (h10 : VOPRF_ERROR_CPP_EXCEPTION ≠ c)
    (h : (VOPRF_CATCH rest).1 ≠ c) :
    (VOPRF_CATCH (mayThrow raised outs rest)).1 ≠ c := by
  cases raised with
  | none => exact h
  | some e => cases e <;> simpa [mayThrow, VOPRF_CATCH]

/-- The status and the output locations after a step that raises. -/
theorem catch_mayThrow_some {σ : Type} (e : CppException) (outs : σ)
    (rest : Except CppException Int × σ) :
    VOPRF_CATCH (mayThrow (some e) outs rest)
      = (if e = .bad_alloc then VOPRF_ERROR_MALLOC else VOPRF_ERROR_CPP_EXCEPTION, outs) := by
  cases e <;> simp [mayThrow, VOPRF_CATCH]

/-! ## C1: the output does not depend on the blinding factor -/

/-- C1, as the code has it: for every secret key `sk`, every message and every
NON-ZERO draw, `voprf_blind` returns the draw as blinding factor `r` together
with `blinded = Mul(HashToPoint(m), r)`, and `voprf_unblind(voprf_evaluate(sk,
blinded), r)` stores `Mul(HashToPoint(m), sk)`: the output is the same for
every non-zero blinding factor.  (All pointers non-NULL, no step of the three
calls raises.) -/
theorem voprf_unblind_evaluate_blind (M : Mcl) (hM : ScalarLaws M)
    (faultB faultE faultU : Faults) (draw : M.Fr) (mem : Bytes) (msg_len : Nat)
    (sk : SecretKey M) (bf0 : voprf_private_key_t M) (bp0 ev0 out0 : voprf_point_t M)
    (hdraw : draw ≠ M.frZero)
    (hB : ∀ k, faultB k = none) (hE : ∀ k, faultE k = none) (hU : ∀ k, faultU k = none) :
    ∃ (r : SecretKey M) (blinded evaluated : Point M),
      r.s = draw ∧
      blinded = Point.Mul (Point.HashToPoint M (mem.take msg_len)) r ∧
      voprf_blind M faultB draw (some mem) msg_len (some bf0) (some bp0)
        = (VOPRF_SUCCESS, some (some r), some (some blinded)) ∧
      voprf_evaluate M faultE (some sk) (some blinded) (some ev0)
        = (VOPRF_SUCCESS, some (some evaluated)) ∧
      voprf_unblind M faultU (some evaluated) (some r) (some out0)
        = (VOPRF_SUCCESS,
            some (some (Point.Mul (Point.HashToPoint M (mem.take msg_len)) sk))) := by
  obtain ⟨b, hb, hinv⟩ := inverse_returns hM ⟨draw⟩ hdraw
  refine ⟨⟨draw⟩, Point.Mul (Point.HashToPoint M (mem.take msg_len)) ⟨draw⟩,
    Point.Mul (Point.Mul (Point.HashToPoint M (mem.take msg_len)) ⟨draw⟩) sk,
    rfl, rfl, ?_, ?_, ?_⟩
  · simp [voprf_blind, VOPRF_CATCH, mayThrow, hB, SecretKey.Keygen]
  · simp [voprf_evaluate, VOPRF_CATCH, mayThrow, hE]
  · simp only [voprf_unblind, hinv, VOPRF_CATCH, mayThrow, hU]
    rw [mul_unblind_evaluate_blind hM _ sk ⟨draw⟩ b hdraw hb]

/-- C1 witness: the theorem at the toy library, draw 3, key 2, message `[7]`. -/
theorem voprf_unblind_evaluate_blind_witness :
    ∃ (r : SecretKey toyMcl) (blinded evaluated : Point toyMcl),
      r.s = (3 : Fin 5) ∧
      blinded = Point.Mul (Point.HashToPoint toyMcl (([7] : Bytes).take 1)) r ∧
      voprf_blind toyMcl noFault (3 : Fin 5) (some [7]) 1 (some none) (some none)
        = (VOPRF_SUCCESS, some (some r), some (some blinded)) ∧
      voprf_evaluate toyMcl noFault (some ⟨(2 : Fin 5)⟩) (some blinded) (some none)
        = (VOPRF_SUCCESS, some (some evaluated)) ∧
      voprf_unblind toyMcl noFault (some evaluated) (some r) (some none)
        = (VOPRF_SUCCESS,
            some (some (Point.Mul (Point.HashToPoint toyMcl (([7] : Bytes).take 1))
              ⟨(2 : Fin 5)⟩))) :=
  voprf_unblind_evaluate_blind toyMcl toyMcl_scalarLaws noFault noFault noFault (3 : Fin 5)
    [7] 1 ⟨(2 : Fin 5)⟩ none none none none (by decide) (fun _ => rfl) (fun _ => rfl)
    (fun _ => rfl)

/-- C1 counterexample: with the draw 0 (toy library, key 1, empty message)
`voprf_blind` succeeds and returns the blinding factor 0 with the identity as
blinded point; evaluating and unblinding succeed and store the identity, which
is not `Mul(HashToPoint(m), sk)`. -/
theorem voprf_unblind_evaluate_blind_zero_draw :
    voprf_blind toyMcl noFault (0 : Fin 5) (some []) 0 (some none) (some none)
        = (VOPRF_SUCCESS, some (some ⟨(0 : Fin 5)⟩), some (some ⟨(0 : Fin 5)⟩)) ∧
      voprf_evaluate toyMcl noFault (some ⟨(1 : Fin 5)⟩) (some ⟨(0 : Fin 5)⟩) (some none)
        = (VOPRF_SUCCESS, some (some ⟨(0 : Fin 5)⟩)) ∧
      voprf_unblind toyMcl noFault (some ⟨(0 : Fin 5)⟩) (some ⟨(0 : Fin 5)⟩) (some none)
        = (VOPRF_SUCCESS, some (some ⟨(0 : Fin 5)⟩)) ∧
      (⟨(0 : Fin 5)⟩ : Point toyMcl)
        ≠ Point.Mul (Point.HashToPoint toyMcl []) ⟨(1 : Fin 5)⟩ := by
  decide

/-! ## C2: a protocol output verifies -/

/-- C2, as the code has it: for every secret key `sk` with public key
`pk = sk.GetVerificationKey()`, every message and every NON-ZERO draw, the
output of a protocol run (blind, evaluate with `sk`, unblind with the same
blinding factor) makes `voprf_verify(pk, m, output)` return 0 and store `true`.
(All pointers non-NULL, no step of the five calls raises.) -/
theorem voprf_verify_protocol_output (M : Mcl) (hM : ScalarLaws M) (hP : PairingLaws M)
    (faultK faultB faultE faultU faultV : Faults) (draw : M.Fr) (mem : Bytes)
    (msg_len : Nat)
    (sk : SecretKey M) (pk0 : voprf_public_key_t M) (bf0 : voprf_private_key_t M)
    (bp0 ev0 out0 : voprf_point_t M) (res0 : Bool)
    (hdraw : draw ≠ M.frZero) (hK : ∀ k, faultK k = none)
    (hB : ∀ k, faultB k = none) (hE : ∀ k, faultE k = none) (hU : ∀ k, faultU k = none)
    (hV : ∀ k, faultV k = none) :
    ∃ (pk : VerificationKey M) (r : SecretKey M) (blinded evaluated output : Point M),
      voprf_private_key_get_public_key M faultK (some sk) (some pk0)
        = (VOPRF_SUCCESS, some (some pk)) ∧
      voprf_blind M faultB draw (some mem) msg_len (some bf0) (some bp0)
        = (VOPRF_SUCCESS, some (some r), some (some blinded)) ∧
      voprf_evaluate M faultE (some sk) (some blinded) (some ev0)
        = (VOPRF_SUCCESS, some (some evaluated)) ∧
      voprf_unblind M faultU (some evaluated) (some r) (some out0)
        = (VOPRF_SUCCESS, some (some output)) ∧
      voprf_verify M faultV (some pk) (some mem) msg_len (some output) (some res0)
        = (VOPRF_SUCCESS, some true) := by
  obtain ⟨b, hb, hinv⟩ := inverse_returns hM ⟨draw⟩ hdraw
  refine ⟨sk.GetVerificationKey, ⟨draw⟩,
    Point.Mul (Point.HashToPoint M (mem.take msg_len)) ⟨draw⟩,
    Point.Mul (Point.Mul (Point.HashToPoint M (mem.take msg_len)) ⟨draw⟩) sk,
    Point.Mul (Point.HashToPoint M (mem.take msg_len)) sk, ?_, ?_, ?_, ?_, ?_⟩
  · simp [voprf_private_key_get_public_key, VOPRF_CATCH, mayThrow, hK]
  · simp [voprf_blind, VOPRF_CATCH, mayThrow, hB, SecretKey.Keygen]
  · simp [voprf_evaluate, VOPRF_CATCH, mayThrow, hE]
  · simp only [voprf_unblind, hinv, VOPRF_CATCH, mayThrow, hU]
    rw [mul_unblind_evaluate_blind hM _ sk ⟨draw⟩ b hdraw hb]
  · simp only [voprf_verify, VOPRF_CATCH, mayThrow, hV]
    rw [pair_key_eq_pair_base hP]
    simp

/-- C2 witness: the theorem at the toy library, draw 3, key 2, message `[7]`. -/
theorem voprf_verify_protocol_output_witness :
    ∃ (pk : VerificationKey toyMcl) (r : SecretKey toyMcl)
      (blinded evaluated output : Point toyMcl),
      voprf_private_key_get_public_key toyMcl noFault (some ⟨(2 : Fin 5)⟩) (some none)
        = (VOPRF_SUCCESS, some (some pk)) ∧
      voprf_blind toyMcl noFault (3 : Fin 5) (some [7]) 1 (some none) (some none)
        = (VOPRF_SUCCESS, some (some r), some (some blinded)) ∧
      voprf_evaluate toyMcl noFault (some ⟨(2 : Fin 5)⟩) (some blinded) (some none)
        = (VOPRF_SUCCESS, some (some evaluated)) ∧
      voprf_unblind toyMcl noFault (some evaluated) (some r) (some none)
        = (VOPRF_SUCCESS, some (some output)) ∧
      voprf_verify toyMcl noFault (some pk) (some [7]) 1 (some output) (some false)
        = (VOPRF_SUCCESS, some true) :=
  voprf_verify_protocol_output toyMcl toyMcl_scalarLaws toyMcl_pairingLaws
    noFault noFault noFault noFault noFault (3 : Fin 5) [7] 1 ⟨(2 : Fin 5)⟩ none none none
    none none false (by decide) (fun _ => rfl) (fun _ => rfl) (fun _ => rfl) (fun _ => rfl)
    (fun _ => rfl)

/-- C2 counterexample: with the draw 0 (toy library, key 1, empty message) the
run succeeds with the identity as output, and `voprf_verify` on the key of
`sk`, the same message and that output stores `false`. -/
theorem voprf_verify_protocol_output_zero_draw :
    voprf_private_key_get_public_key toyMcl noFault (some ⟨(1 : Fin 5)⟩) (some none)
        = (VOPRF_SUCCESS, some (some ⟨(2 : Fin 5)⟩)) ∧
      voprf_blind toyMcl noFault (0 : Fin 5) (some []) 0 (some none) (some none)
        = (VOPRF_SUCCESS, some (some ⟨(0 : Fin 5)⟩), some (some ⟨(0 : Fin 5)⟩)) ∧
      voprf_evaluate toyMcl noFault (some ⟨(1 : Fin 5)⟩) (some ⟨(0 : Fin 5)⟩) (some none)
        = (VOPRF_SUCCESS, some (some ⟨(0 : Fin 5)⟩)) ∧
      voprf_unblind toyMcl noFault (some ⟨(0 : Fin 5)⟩) (some ⟨(0 : Fin 5)⟩) (some none)
        = (VOPRF_SUCCESS, some (some ⟨(0 : Fin 5)⟩)) ∧
      voprf_verify toyMcl noFault (some ⟨(2 : Fin 5)⟩) (some []) 0 (some ⟨(0 : Fin 5)⟩)
          (some true)
        = (VOPRF_SUCCESS, some false) := by
  decide

/-! ## C3: an output for another message or another key does not verify -/

/-- A non-zero scalar acts injectively on `G1`. -/
theorem g1Mul_point_inj {M : Mcl} (hM : ScalarLaws M) (P Q : M.G1) (a : M.Fr)
    (ha : a ≠ M.frZero) (h : M.g1Mul P a = M.g1Mul Q a) : P = Q := by
  obtain ⟨b, hb⟩ := hM.frInv_returns a ha
  have h2 := congrArg (fun X => M.g1Mul X b) h
  simp only [hM.g1Mul_inv _ _ _ ha hb] at h2
  exact h2

/-- C3, as the code has it: for every secret key `sk` with `pk = sk·Generator`
and every message `m`, `voprf_verify(pk, m, output)` returns 0 and stores
`false` (a) when `sk` is NOT THE ZERO SCALAR and `output = sk·HashToPoint(m')`
for a message `m'` with `HashToPoint(m') != HashToPoint(m)`, and (b) when
`output = sk'·HashToPoint(m)` for a key `sk' != sk`.  (No step of the call
raises.) -/
theorem voprf_verify_rejects (M : Mcl) (hM : ScalarLaws M) (hP : PairingLaws M)
    (fault : Faults) (sk : SecretKey M) (mem : Bytes) (msg_len : Nat) (res0 : Bool)
    (hf : ∀ k, fault k = none) :
    (∀ (mem' : Bytes) (msg_len' : Nat), sk.s ≠ M.frZero →
        Point.HashToPoint M (mem'.take msg_len') ≠ Point.HashToPoint M (mem.take msg_len) →
        voprf_verify M fault (some sk.GetVerificationKey) (some mem) msg_len
            (some (Point.Mul (Point.HashToPoint M (mem'.take msg_len')) sk)) (some res0)
          = (VOPRF_SUCCESS, some false)) ∧
    (∀ sk' : SecretKey M, sk' ≠ sk →
        voprf_verify M fault (some sk.GetVerificationKey) (some mem) msg_len
            (some (Point.Mul (Point.HashToPoint M (mem.take msg_len)) sk')) (some res0)
          = (VOPRF_SUCCESS, some false)) := by
  constructor
  · intro mem' msg_len' hsk hne
    simp only [voprf_verify, VOPRF_CATCH, mayThrow, hf]
    rw [pair_key_eq_pair_base hP]
    have : Pairing.Pair (Point.Mul (Point.HashToPoint M (mem.take msg_len)) sk)
          ⟨VerificationKey.GetBase M⟩
        ≠ Pairing.Pair (Point.Mul (Point.HashToPoint M (mem'.take msg_len')) sk)
          ⟨VerificationKey.GetBase M⟩ := by
      intro h
      apply hne
      simp only [Pairing.Pair, Point.GetG1, VerificationKey.GetG2, Point.Mul,
        SecretKey.GetFr, VerificationKey.GetBase, Pairing.mk.injEq] at h
      have h1 := g1Mul_point_inj hM _ _ _ hsk (hP.pairing_base_inj _ _ h)
      simp only [Point.HashToPoint, Point.mk.injEq] at h1 ⊢
      exact h1.symm
    simp [this]
  · intro sk' hne
    simp only [voprf_verify, VOPRF_CATCH, mayThrow, hf]
    rw [pair_key_eq_pair_base hP]
    have : Pairing.Pair (Point.Mul (Point.HashToPoint M (mem.take msg_len)) sk)
          ⟨VerificationKey.GetBase M⟩
        ≠ Pairing.Pair (Point.Mul (Point.HashToPoint M (mem.take msg_len)) sk')
          ⟨VerificationKey.GetBase M⟩ := by
      intro h
      apply hne
      simp only [Pairing.Pair, Point.GetG1, VerificationKey.GetG2, Point.Mul,
        SecretKey.GetFr, VerificationKey.GetBase, Pairing.mk.injEq] at h
      have h1 := hM.g1Mul_scalar_inj _ _ _ (hM.mapToG1_ne_zero _) (hP.pairing_base_inj _ _ h)
      cases sk; cases sk'
      simp only [SecretKey.mk.injEq]
      exact h1.symm
    simp [this]

/-- C3 witness: the theorem at the toy library, key 2, message `[]`: the
results for the message `[1]` under key 2 and for the message `[]` under key 3
are both rejected. -/
theorem voprf_verify_rejects_witness :
    voprf_verify toyMcl noFault (some (SecretKey.GetVerificationKey ⟨(2 : Fin 5)⟩)) (some [])
          0
          (some (Point.Mul (Point.HashToPoint toyMcl (([1] : Bytes).take 1)) ⟨(2 : Fin 5)⟩))
          (some true)
        = (VOPRF_SUCCESS, some false) ∧
      voprf_verify toyMcl noFault (some (SecretKey.GetVerificationKey ⟨(2 : Fin 5)⟩))
          (some []) 0
          (some (Point.Mul (Point.HashToPoint toyMcl (([] : Bytes).take 0)) ⟨(3 : Fin 5)⟩))
          (some true)
        = (VOPRF_SUCCESS, some false) :=
  ⟨(voprf_verify_rejects toyMcl toyMcl_scalarLaws toyMcl_pairingLaws noFault ⟨(2 : Fin 5)⟩
      [] 0 true (fun _ => rfl)).1 [1] 1 (by decide) (by decide),
    (voprf_verify_rejects toyMcl toyMcl_scalarLaws toyMcl_pairingLaws noFault ⟨(2 : Fin 5)⟩
      [] 0 true (fun _ => rfl)).2 ⟨(3 : Fin 5)⟩ (by decide)⟩

/-- C3 counterexample: for the secret key 0 (toy library), whose public key is
the identity of `G2`, the correct result for the message `[1]` is accepted for
the message `[]` although the two messages hash to different points. -/
theorem voprf_verify_accepts_other_message_zero_key :
    Point.HashToPoint toyMcl [1] ≠ Point.HashToPoint toyMcl [] ∧
      voprf_verify toyMcl noFault (some (SecretKey.GetVerificationKey ⟨(0 : Fin 5)⟩))
          (some []) 0
          (some (Point.Mul (Point.HashToPoint toyMcl [1]) ⟨(0 : Fin 5)⟩)) (some false)
        = (VOPRF_SUCCESS, some true) := by
  decide

/-! ## C4: the blinding factor handed back by `voprf_blind` -/

/-- C4, as the code has it: for every message and every outcome `draw` of the
random draw, `voprf_blind` (pointers non-NULL, no step raises) returns 0 and
hands back the drawn scalar itself as blinding factor, with no test against
zero: the blinding factor handed back is non-zero exactly when the draw is. -/
theorem voprf_blind_returns_draw (M : Mcl) (fault : Faults) (draw : M.Fr)
    (mem : Bytes) (msg_len : Nat) (bf0 : voprf_private_key_t M) (bp0 : voprf_point_t M)
    (hf : ∀ k, fault k = none) :
    ∃ (r : SecretKey M) (blinded : Point M),
      voprf_blind M fault draw (some mem) msg_len (some bf0) (some bp0)
        = (VOPRF_SUCCESS, some (some r), some (some blinded)) ∧
      r.s = draw ∧ (r.s ≠ M.frZero ↔ draw ≠ M.frZero) := by
  refine ⟨⟨draw⟩, Point.Mul (Point.HashToPoint M (mem.take msg_len)) ⟨draw⟩, ?_, rfl,
    Iff.rfl⟩
  simp [voprf_blind, VOPRF_CATCH, mayThrow, hf, SecretKey.Keygen]

/-- C4 witness: the theorem at the toy library and the draw 0. -/
theorem voprf_blind_returns_draw_witness :
    ∃ (r : SecretKey toyMcl) (blinded : Point toyMcl),
      voprf_blind toyMcl noFault (0 : Fin 5) (some [7]) 1 (some none) (some none)
        = (VOPRF_SUCCESS, some (some r), some (some blinded)) ∧
      r.s = (0 : Fin 5) ∧ (r.s ≠ toyMcl.frZero ↔ (0 : Fin 5) ≠ toyMcl.frZero) :=
  voprf_blind_returns_draw toyMcl noFault (0 : Fin 5) [7] 1 none none (fun _ => rfl)

/-- C4 counterexample: on the draw 0 (toy library, message `[7]`) `voprf_blind`
returns 0 and hands back the zero scalar as blinding factor. -/
theorem voprf_blind_surfaces_zero :
    voprf_blind toyMcl noFault toyMcl.frZero (some [7]) 1 (some none) (some none)
      = (VOPRF_SUCCESS, some (some ⟨toyMcl.frZero⟩), some (some ⟨toyMcl.g1Zero⟩)) := by
  decide

/-! ## C5: inverting the zero scalar -/

/-- C6, what the code does: whatever `deserialize` reports for the buffer, also
0 (failure), `voprf_point_from_bytes`, `voprf_public_key_from_bytes` and
`voprf_private_key_from_bytes` (pointers non-NULL, no step raises) return
`VOPRF_SUCCESS` and store a handle to the object `FromBytes` built; the status
`VOPRF_ERROR_DESERIALIZATION` is never returned. -/
theorem voprf_from_bytes_always_succeeds (M : Mcl) (fault : Faults) (buf : Bytes)
    (buffer_len : Nat) (p0 : voprf_point_t M) (pk0 : voprf_public_key_t M)
    (sk0 : voprf_private_key_t M) (hf : ∀ k, fault k = none) :
    voprf_point_from_bytes M fault (some p0) (some buf) buffer_len
        = (VOPRF_SUCCESS, some (some (Point.FromBytes M (buf.take buffer_len)))) ∧
      voprf_public_key_from_bytes M fault (some pk0) (some buf) buffer_len
        = (VOPRF_SUCCESS, some (some (VerificationKey.FromBytes M (buf.take buffer_len)))) ∧
      voprf_private_key_from_bytes M fault (some sk0) (some buf) buffer_len
        = (VOPRF_SUCCESS, some (some (SecretKey.FromBytes M (buf.take buffer_len)))) := by
  refine ⟨?_, ?_, ?_⟩
  · simp [voprf_point_from_bytes, VOPRF_CATCH, mayThrow, hf]
  · simp [voprf_public_key_from_bytes, VOPRF_CATCH, mayThrow, hf]
  · simp [voprf_private_key_from_bytes, VOPRF_CATCH, mayThrow, hf]

/-- C6 at the failing input: the empty buffer (toy library), for which
`deserialize` reports failure for all three types, is accepted by the three
`from_bytes` entry points with status 0 and a new object. -/
theorem voprf_from_bytes_empty_buffer :
    ((toyMcl.g1Deserialize []).1 = 0 ∧ (toyMcl.g2Deserialize []).1 = 0
        ∧ (toyMcl.frDeserialize []).1 = 0) ∧
      voprf_point_from_bytes toyMcl noFault (some none) (some []) 0
        = (VOPRF_SUCCESS, some (some (Point.FromBytes toyMcl (([] : Bytes).take 0)))) ∧
      voprf_public_key_from_bytes toyMcl noFault (some none) (some []) 0
        = (VOPRF_SUCCESS,
            some (some (VerificationKey.FromBytes toyMcl (([] : Bytes).take 0)))) ∧
      voprf_private_key_from_bytes toyMcl noFault (some none) (some []) 0
        = (VOPRF_SUCCESS, some (some (SecretKey.FromBytes toyMcl (([] : Bytes).take 0)))) :=
  ⟨by decide,
    voprf_from_bytes_always_succeeds toyMcl noFault [] 0 none none none (fun _ => rfl)⟩

/-! ## C7: `FromBytes` after `ToBytes` -/

/-- Taking back the copied bytes from the front of the buffer. -/
theorem take_memcpy (buffer bytes : Bytes) : (memcpy buffer bytes).take bytes.length = bytes := by
  simp [memcpy]

/-- `SecretKey`: decoding the encoding. -/
theorem secretKey_fromBytes_toBytes {M : Mcl} (hC : CodecLaws M) (sk : SecretKey M) :
    SecretKey.FromBytes M sk.ToBytes = sk := by
  simp only [SecretKey.FromBytes, SecretKey.ToBytes]
  rw [hC.fr_read _ _ (hC.fr_fits _ _ (by simp [SecretKey.SK_SIZE]))]

/-- `VerificationKey`: decoding the encoding. -/
theorem verificationKey_fromBytes_toBytes {M : Mcl} (hC : CodecLaws M)
    (pk : VerificationKey M) : VerificationKey.FromBytes M pk.ToBytes = pk := by
  simp only [VerificationKey.FromBytes, VerificationKey.ToBytes]
  rw [hC.g2_read _ _ (hC.g2_fits _ _ (by simp [VerificationKey.MAX_PK_SIZE]))]

/-- `Point`: decoding the encoding. -/
theorem point_fromBytes_toBytes {M : Mcl} (hC : CodecLaws M) (p : Point M) :
    Point.FromBytes M p.ToBytes = p := by
  simp only [Point.FromBytes, Point.ToBytes]
  rw [hC.g1_read _ _ (hC.g1_fits _ _ (by simp [Point.MAX_Pt_SIZE]))]

/-- C7: for every `SecretKey`, `VerificationKey` and `Point` `x`,
`FromBytes(ToBytes(x)) == x`; in particular a public key written by
`voprf_public_key_to_bytes` into a buffer of the reported size and read back by
`voprf_public_key_from_bytes` (no step of the three calls raising) is a key
equal to the original, and `voprf_verify` returns the same with either copy. -/
theorem from_bytes_to_bytes (M : Mcl) (hC : CodecLaws M) :
    (∀ sk : SecretKey M, SecretKey.FromBytes M sk.ToBytes = sk) ∧
    (∀ pk : VerificationKey M, VerificationKey.FromBytes M pk.ToBytes = pk) ∧
    (∀ p : Point M, Point.FromBytes M p.ToBytes = p) ∧
    (∀ (pk : VerificationKey M) (faultS faultT faultF : Faults) (buf : Bytes) (size0 : Nat)
        (old : voprf_public_key_t M),
      (∀ k, faultS k = none) → (∀ k, faultT k = none) → (∀ k, faultF k = none) →
      ∃ (size : Nat) (written : Bytes) (copy : VerificationKey M),
        voprf_public_key_get_byte_size M faultS (some pk) (some size0)
          = (VOPRF_SUCCESS, some size) ∧
        voprf_public_key_to_bytes M faultT (some pk) (some buf) size
          = (VOPRF_SUCCESS, some written) ∧
        voprf_public_key_from_bytes M faultF (some old) (some written) size
          = (VOPRF_SUCCESS, some (some copy)) ∧
        copy = pk ∧
        ∀ (fault : Faults) (msg : Option Bytes) (msg_len : Nat) (out : voprf_point_t M)
          (res : Option Bool),
          voprf_verify M fault (some copy) msg msg_len out res
            = voprf_verify M fault (some pk) msg msg_len out res) := by
  refine ⟨secretKey_fromBytes_toBytes hC, verificationKey_fromBytes_toBytes hC,
    point_fromBytes_toBytes hC, ?_⟩
  intro pk faultS faultT faultF buf size0 old hS hT hF
  refine ⟨pk.ToBytes.length, memcpy buf pk.ToBytes, pk, ?_, ?_, ?_, rfl,
    fun _ _ _ _ _ => rfl⟩
  · simp [voprf_public_key_get_byte_size, VOPRF_CATCH, mayThrow, hS]
  · simp [voprf_public_key_to_bytes, VOPRF_CATCH, mayThrow, hT]
  · simp only [voprf_public_key_from_bytes, VOPRF_CATCH, mayThrow, hF, take_memcpy]
    rw [verificationKey_fromBytes_toBytes hC]

/-- C7 witness: the theorem at the toy library: the scalar 4, the `G2` element
3 and the `G1` element 2 are read back from their encodings, and the public
key 3 comes back from a buffer that held `[9, 9]`. -/
theorem from_bytes_to_bytes_witness :
    SecretKey.FromBytes toyMcl (SecretKey.ToBytes (⟨(4 : Fin 5)⟩ : SecretKey toyMcl))
        = ⟨(4 : Fin 5)⟩ ∧
      VerificationKey.FromBytes toyMcl
          (VerificationKey.ToBytes (⟨(3 : Fin 5)⟩ : VerificationKey toyMcl))
        = ⟨(3 : Fin 5)⟩ ∧
      Point.FromBytes toyMcl (Point.ToBytes (⟨(2 : Fin 5)⟩ : Point toyMcl))
        = ⟨(2 : Fin 5)⟩ ∧
      ∃ (size : Nat) (written : Bytes) (copy : VerificationKey toyMcl),
        voprf_public_key_get_byte_size toyMcl noFault (some ⟨(3 : Fin 5)⟩) (some 0)
          = (VOPRF_SUCCESS, some size) ∧
        voprf_public_key_to_bytes toyMcl noFault (some ⟨(3 : Fin 5)⟩) (some [9, 9]) size
          = (VOPRF_SUCCESS, some written) ∧
        voprf_public_key_from_bytes toyMcl noFault (some none) (some written) size
          = (VOPRF_SUCCESS, some (some copy)) ∧
        copy = ⟨(3 : Fin 5)⟩ ∧
        ∀ (fault : Faults) (msg : Option Bytes) (msg_len : Nat) (out : voprf_point_t toyMcl)
          (res : Option Bool),
          voprf_verify toyMcl fault (some copy) msg msg_len out res
            = voprf_verify toyMcl fault (some ⟨(3 : Fin 5)⟩) msg msg_len out res :=
  ⟨(from_bytes_to_bytes toyMcl toyMcl_codecLaws).1 ⟨(4 : Fin 5)⟩,
    (from_bytes_to_bytes toyMcl toyMcl_codecLaws).2.1 ⟨(3 : Fin 5)⟩,
    (from_bytes_to_bytes toyMcl toyMcl_codecLaws).2.2.1 ⟨(2 : Fin 5)⟩,
    (from_bytes_to_bytes toyMcl toyMcl_codecLaws).2.2.2 ⟨(3 : Fin 5)⟩ noFault noFault noFault
      [9, 9] 0 none (fun _ => rfl) (fun _ => rfl) (fun _ => rfl)⟩

/-! ## C8: the buffer size test of the `to_bytes` entry points -/

/-- C8, as the code has it: for every point, public key and private key `x`,
with non-NULL arguments and NO STEP RAISING, `voprf_*_get_byte_size(x)` reports
a size `n`, and `voprf_*_to_bytes(x, buffer, buffer_len)` returns
`VOPRF_ERROR_INVALID_BUFFER_SIZE` exactly when `buffer_len < n`; otherwise it
returns 0 and the first `n` bytes of the buffer are `ToBytes(x)`, so a buffer of
exactly `n` bytes suffices.  When `ToBytes()` raises (`f 0 = some e`), whatever
the buffer length, the call returns `VOPRF_ERROR_MALLOC` for `std::bad_alloc`
and `VOPRF_ERROR_CPP_EXCEPTION` otherwise, and the buffer is as it was. -/
theorem voprf_to_bytes_buffer_size (M : Mcl) (faultS faultT : Faults) (buf : Bytes)
    (buffer_len size0 : Nat) (hS : ∀ k, faultS k = none) (hT : ∀ k, faultT k = none) :
    (∀ x : Point M, ∃ n : Nat,
      voprf_point_get_byte_size M faultS (some x) (some size0) = (VOPRF_SUCCESS, some n) ∧
      ((voprf_point_to_bytes M faultT (some x) (some buf) buffer_len).1
          = VOPRF_ERROR_INVALID_BUFFER_SIZE ↔ buffer_len < n) ∧
      (¬ buffer_len < n → ∃ written : Bytes,
        voprf_point_to_bytes M faultT (some x) (some buf) buffer_len = (0, some written) ∧
        written.take n = x.ToBytes) ∧
      (voprf_point_to_bytes M faultT (some x) (some buf) n).1 = 0 ∧
      (∀ (f : Faults) (e : CppException), f 0 = some e →
        voprf_point_to_bytes M f (some x) (some buf) buffer_len
          = (if e = .bad_alloc then VOPRF_ERROR_MALLOC else VOPRF_ERROR_CPP_EXCEPTION,
              some buf))) ∧
    (∀ x : VerificationKey M, ∃ n : Nat,
      voprf_public_key_get_byte_size M faultS (some x) (some size0)
        = (VOPRF_SUCCESS, some n) ∧
      ((voprf_public_key_to_bytes M faultT (some x) (some buf) buffer_len).1
          = VOPRF_ERROR_INVALID_BUFFER_SIZE ↔ buffer_len < n) ∧
      (¬ buffer_len < n → ∃ written : Bytes,
        voprf_public_key_to_bytes M faultT (some x) (some buf) buffer_len
          = (0, some written) ∧
        written.take n = x.ToBytes) ∧
      (voprf_public_key_to_bytes M faultT (some x) (some buf) n).1 = 0 ∧
      (∀ (f : Faults) (e : CppException), f 0 = some e →
        voprf_public_key_to_bytes M f (some x) (some buf) buffer_len
          = (if e = .bad_alloc then VOPRF_ERROR_MALLOC else VOPRF_ERROR_CPP_EXCEPTION,
              some buf))) ∧
    (∀ x : SecretKey M, ∃ n : Nat,
      voprf_private_key_get_byte_size M faultS (some x) (some size0)
        = (VOPRF_SUCCESS, some n) ∧
      ((voprf_private_key_to_bytes M faultT (some x) (some buf) buffer_len).1
          = VOPRF_ERROR_INVALID_BUFFER_SIZE ↔ buffer_len < n) ∧
      (¬ buffer_len < n → ∃ written : Bytes,
        voprf_private_key_to_bytes M faultT (some x) (some buf) buffer_len
          = (0, some written) ∧
        written.take n = x.ToBytes) ∧
      (voprf_private_key_to_bytes M faultT (some x) (some buf) n).1 = 0 ∧
      (∀ (f : Faults) (e : CppException), f 0 = some e →
        voprf_private_key_to_bytes M f (some x) (some buf) buffer_len
          = (if e = .bad_alloc then VOPRF_ERROR_MALLOC else VOPRF_ERROR_CPP_EXCEPTION,
              some buf))) := by
  refine ⟨fun x => ⟨x.ToBytes.length, ?_, ?_, ?_, ?_, ?_⟩,
    fun x => ⟨x.ToBytes.length, ?_, ?_, ?_, ?_, ?_⟩,
    fun x => ⟨x.ToBytes.length, ?_, ?_, ?_, ?_, ?_⟩⟩
  · simp [voprf_point_get_byte_size, VOPRF_CATCH, mayThrow, hS]
  · by_cases h : buffer_len < x.ToBytes.length <;>
      simp [voprf_point_to_bytes, VOPRF_CATCH, mayThrow, hT, h,
        VOPRF_ERROR_INVALID_BUFFER_SIZE, VOPRF_SUCCESS]
  · intro h
    refine ⟨memcpy buf x.ToBytes, ?_, take_memcpy _ _⟩
    simp [voprf_point_to_bytes, VOPRF_CATCH, mayThrow, hT, h, VOPRF_SUCCESS]
  · simp [voprf_point_to_bytes, VOPRF_CATCH, mayThrow, hT, VOPRF_SUCCESS]
  · intro f e he
    simp only [voprf_point_to_bytes, he, catch_mayThrow_some]
  · simp [voprf_public_key_get_byte_size, VOPRF_CATCH, mayThrow, hS]
  · by_cases h : buffer_len < x.ToBytes.length <;>
      simp [voprf_public_key_to_bytes, VOPRF_CATCH, mayThrow, hT, h,
        VOPRF_ERROR_INVALID_BUFFER_SIZE, VOPRF_SUCCESS]
  · intro h
    refine ⟨memcpy buf x.ToBytes, ?_, take_memcpy _ _⟩
    simp [voprf_public_key_to_bytes, VOPRF_CATCH, mayThrow, hT, h, VOPRF_SUCCESS]
  · simp [voprf_public_key_to_bytes, VOPRF_CATCH, mayThrow, hT, VOPRF_SUCCESS]
  · intro f e he
    simp only [voprf_public_key_to_bytes, he, catch_mayThrow_some]
  · simp [voprf_private_key_get_byte_size, VOPRF_CATCH, mayThrow, hS]
  · by_cases h : buffer_len < x.ToBytes.length <;>
      simp [voprf_private_key_to_bytes, VOPRF_CATCH, mayThrow, hT, h,
        VOPRF_ERROR_INVALID_BUFFER_SIZE, VOPRF_SUCCESS]
  · intro h
    refine ⟨memcpy buf x.ToBytes, ?_, take_memcpy _ _⟩
    simp [voprf_private_key_to_bytes, VOPRF_CATCH, mayThrow, hT, h, VOPRF_SUCCESS]
  · simp [voprf_private_key_to_bytes, VOPRF_CATCH, mayThrow, hT, VOPRF_SUCCESS]
  · intro f e he
    simp only [voprf_private_key_to_bytes, he, catch_mayThrow_some]

/-- C8 witness: the theorem at the toy library, where the point 3 encodes to
one byte: the size 1 is reported, and a raising `ToBytes()` gives
`VOPRF_ERROR_MALLOC` with the buffer `[9]` as it was. -/
theorem voprf_to_bytes_buffer_size_witness :
    ∃ n : Nat,
      voprf_point_get_byte_size toyMcl noFault (some ⟨(3 : Fin 5)⟩) (some 0)
        = (VOPRF_SUCCESS, some n) ∧
      ((voprf_point_to_bytes toyMcl noFault (some ⟨(3 : Fin 5)⟩) (some [9]) 1).1
          = VOPRF_ERROR_INVALID_BUFFER_SIZE ↔ 1 < n) ∧
      (¬ 1 < n → ∃ written : Bytes,
        voprf_point_to_bytes toyMcl noFault (some ⟨(3 : Fin 5)⟩) (some [9]) 1
          = (0, some written) ∧
        written.take n = Point.ToBytes (⟨(3 : Fin 5)⟩ : Point toyMcl)) ∧
      (voprf_point_to_bytes toyMcl noFault (some ⟨(3 : Fin 5)⟩) (some [9]) n).1 = 0 ∧
      (∀ (f : Faults) (e : CppException), f 0 = some e →
        voprf_point_to_bytes toyMcl f (some ⟨(3 : Fin 5)⟩) (some [9]) 1
          = (if e = .bad_alloc then VOPRF_ERROR_MALLOC else VOPRF_ERROR_CPP_EXCEPTION,
              some [9])) :=
  (voprf_to_bytes_buffer_size toyMcl noFault noFault [9] 1 0 (fun _ => rfl)
    (fun _ => rfl)).1 ⟨(3 : Fin 5)⟩

/-- C8 counterexample: the point 3 of the toy library has the reported size 1;
with a buffer of length 1, which is not smaller than the reported size, and
the vector of `ToBytes()` failing to allocate, `voprf_point_to_bytes` returns
`VOPRF_ERROR_MALLOC` instead of 0 and the buffer does not receive the encoding. -/
theorem voprf_point_to_bytes_alloc_failure :
    voprf_point_get_byte_size toyMcl noFault (some ⟨(3 : Fin 5)⟩) (some 0)
        = (VOPRF_SUCCESS, some 1) ∧
      voprf_point_to_bytes toyMcl (faultAt 0 .bad_alloc) (some ⟨(3 : Fin 5)⟩) (some [9]) 1
        = (VOPRF_ERROR_MALLOC, some [9]) ∧
      VOPRF_ERROR_MALLOC ≠ 0 ∧ VOPRF_ERROR_MALLOC ≠ VOPRF_ERROR_INVALID_BUFFER_SIZE ∧
      voprf_point_to_bytes toyMcl noFault (some ⟨(3 : Fin 5)⟩) (some [9]) 1
        = (VOPRF_SUCCESS, some [3]) := by
  decide

/-- A step in front of a block keeps the alternative "outputs as they were, or
the property of the completed block". -/
theorem catch_mayThrow_or {σ : Type} (raised : Option CppException) (outs : σ)
    (rest : Except CppException Int × σ) (P : Int × σ → Prop)
    (h : (VOPRF_CATCH rest).2 = outs ∨ P (VOPRF_CATCH rest)) :
    (VOPRF_CATCH (mayThrow raised outs rest)).2 = outs ∨
      P (VOPRF_CATCH (mayThrow raised outs rest)) := by
  cases raised with
  | none => exact h
  | some e => cases e <;> simp [mayThrow, VOPRF_CATCH]

/-! ## C9: a failing call leaves the output locations alone -/

/-- C9: whenever an entry point returns a non-zero status, whichever it is
(`VOPRF_ERROR_NULL_ARG`, `VOPRF_ERROR_INVALID_BUFFER_SIZE`, or
`VOPRF_ERROR_MALLOC` / `VOPRF_ERROR_CPP_EXCEPTION` for an exception raised by
any step of the block), every output location (handle locations, buffer, size,
boolean) holds what it held before the call; `voprf_blind` either leaves both
its output locations as they were or, returning 0, stores new objects in both. -/
theorem voprf_failure_leaves_outputs (M : Mcl) (fault : Faults) :
    (∀ draw key, (voprf_private_key_generate M fault draw key).1 ≠ 0 →
      (voprf_private_key_generate M fault draw key).2 = key) ∧
    (∀ sk pk, (voprf_private_key_get_public_key M fault sk pk).1 ≠ 0 →
      (voprf_private_key_get_public_key M fault sk pk).2 = pk) ∧
    (∀ key size, (voprf_private_key_get_byte_size M fault key size).1 ≠ 0 →
      (voprf_private_key_get_byte_size M fault key size).2 = size) ∧
    (∀ key buffer len, (voprf_private_key_to_bytes M fault key buffer len).1 ≠ 0 →
      (voprf_private_key_to_bytes M fault key buffer len).2 = buffer) ∧
    (∀ key buffer len, (voprf_private_key_from_bytes M fault key buffer len).1 ≠ 0 →
      (voprf_private_key_from_bytes M fault key buffer len).2 = key) ∧
    (∀ key size, (voprf_public_key_get_byte_size M fault key size).1 ≠ 0 →
      (voprf_public_key_get_byte_size M fault key size).2 = size) ∧
    (∀ key buffer len, (voprf_public_key_to_bytes M fault key buffer len).1 ≠ 0 →
      (voprf_public_key_to_bytes M fault key buffer len).2 = buffer) ∧
    (∀ key buffer len, (voprf_public_key_from_bytes M fault key buffer len).1 ≠ 0 →
      (voprf_public_key_from_bytes M fault key buffer len).2 = key) ∧
    (∀ point size, (voprf_point_get_byte_size M fault point size).1 ≠ 0 →
      (voprf_point_get_byte_size M fault point size).2 = size) ∧
    (∀ point buffer len, (voprf_point_to_bytes M fault point buffer len).1 ≠ 0 →
      (voprf_point_to_bytes M fault point buffer len).2 = buffer) ∧
    (∀ point buffer len, (voprf_point_from_bytes M fault point buffer len).1 ≠ 0 →
      (voprf_point_from_bytes M fault point buffer len).2 = point) ∧
    (∀ p1 p2 equal, (voprf_point_equal M fault p1 p2 equal).1 ≠ 0 →
      (voprf_point_equal M fault p1 p2 equal).2 = equal) ∧
    (∀ draw msg len bf bp, (voprf_blind M fault draw msg len bf bp).1 ≠ 0 →
      (voprf_blind M fault draw msg len bf bp).2 = (bf, bp)) ∧
    (∀ draw msg len bf bp,
      (voprf_blind M fault draw msg len bf bp).2 = (bf, bp) ∨
      ∃ r x, voprf_blind M fault draw msg len bf bp = (0, some (some r), some (some x))) ∧
    (∀ sk blinded ev, (voprf_evaluate M fault sk blinded ev).1 ≠ 0 →
      (voprf_evaluate M fault sk blinded ev).2 = ev) ∧
    (∀ ev bf out, (voprf_unblind M fault ev bf out).1 ≠ 0 →
      (voprf_unblind M fault ev bf out).2 = out) ∧
    (∀ pk msg len out res, (voprf_verify M fault pk msg len out res).1 ≠ 0 →
      (voprf_verify M fault pk msg len out res).2 = res) := by
  refine ⟨?_, ?_, ?_, ?_, ?_, ?_, ?_, ?_, ?_, ?_, ?_, ?_, ?_, ?_, ?_, ?_, ?_⟩
  · intro draw key
    cases key with
    | none => simp [voprf_private_key_generate, VOPRF_ERROR_NULL_ARG]
    | some key =>
      simp only [voprf_private_key_generate]
      repeat apply catch_mayThrow_frame
      simp [VOPRF_CATCH, VOPRF_SUCCESS]
  · intro sk pk
    cases sk with
    | none => simp [voprf_private_key_get_public_key, VOPRF_ERROR_NULL_ARG]
    | some sk =>
      cases pk with
      | none => simp [voprf_private_key_get_public_key, VOPRF_ERROR_NULL_ARG]
      | some pk =>
        simp only [voprf_private_key_get_public_key]
        repeat apply catch_mayThrow_frame
        simp [VOPRF_CATCH, VOPRF_SUCCESS]
  · intro key size
    cases key with
    | none => simp [voprf_private_key_get_byte_size, VOPRF_ERROR_NULL_ARG]
    | some key =>
      cases size with
      | none => simp [voprf_private_key_get_byte_size, VOPRF_ERROR_NULL_ARG]
      | some size =>
        simp only [voprf_private_key_get_byte_size]
        repeat apply catch_mayThrow_frame
        simp [VOPRF_CATCH, VOPRF_SUCCESS]
  · intro key buffer len
    cases key with
    | none => simp [voprf_private_key_to_bytes, VOPRF_ERROR_NULL_ARG]
    | some key =>
      cases buffer with
      | none => simp [voprf_private_key_to_bytes, VOPRF_ERROR_NULL_ARG]
      | some buffer =>
        simp only [voprf_private_key_to_bytes]
        repeat apply catch_mayThrow_frame
        split <;> simp [VOPRF_CATCH, VOPRF_SUCCESS]
  · intro key buffer len
    cases key with
    | none => simp [voprf_private_key_from_bytes, VOPRF_ERROR_NULL_ARG]
    | some key =>
      cases buffer with
      | none => simp [voprf_private_key_from_bytes, VOPRF_ERROR_NULL_ARG]
      | some buffer =>
        simp only [voprf_private_key_from_bytes]
        repeat apply catch_mayThrow_frame
        simp [VOPRF_CATCH, VOPRF_SUCCESS]
  · intro key size
    cases key with
    | none => simp [voprf_public_key_get_byte_size, VOPRF_ERROR_NULL_ARG]
    | some key =>
      cases size with
      | none => simp [voprf_public_key_get_byte_size, VOPRF_ERROR_NULL_ARG]
      | some size =>
        simp only [voprf_public_key_get_byte_size]
        repeat apply catch_mayThrow_frame
        simp [VOPRF_CATCH, VOPRF_SUCCESS]
  · intro key buffer len
    cases key with
    | none => simp [voprf_public_key_to_bytes, VOPRF_ERROR_NULL_ARG]
    | some key =>
      cases buffer with
      | none => simp [voprf_public_key_to_bytes, VOPRF_ERROR_NULL_ARG]
      | some buffer =>
        simp only [voprf_public_key_to_bytes]
        repeat apply catch_mayThrow_frame
        split <;> simp [VOPRF_CATCH, VOPRF_SUCCESS]
  · intro key buffer len
    cases key with
    | none => simp [voprf_public_key_from_bytes, VOPRF_ERROR_NULL_ARG]
    | some key =>
      cases buffer with
      | none => simp [voprf_public_key_from_bytes, VOPRF_ERROR_NULL_ARG]
      | some buffer =>
        simp only [voprf_public_key_from_bytes]
        repeat apply catch_mayThrow_frame
        simp [VOPRF_CATCH, VOPRF_SUCCESS]
  · intro point size
    cases point with
    | none => simp [voprf_point_get_byte_size, VOPRF_ERROR_NULL_ARG]
    | some point =>
      cases size with
      | none => simp [voprf_point_get_byte_size, VOPRF_ERROR_NULL_ARG]
      | some size =>
        simp only [voprf_point_get_byte_size]
        repeat apply catch_mayThrow_frame
        simp [VOPRF_CATCH, VOPRF_SUCCESS]
  · intro point buffer len
    cases point with
    | none => simp [voprf_point_to_bytes, VOPRF_ERROR_NULL_ARG]
    | some point =>
      cases buffer with
      | none => simp [voprf_point_to_bytes, VOPRF_ERROR_NULL_ARG]
      | some buffer =>
        simp only [voprf_point_to_bytes]
        repeat apply catch_mayThrow_frame
        split <;> simp [VOPRF_CATCH, VOPRF_SUCCESS]
  · intro point buffer len
    cases point with
    | none => simp [voprf_point_from_bytes, VOPRF_ERROR_NULL_ARG]
    | some point =>
      cases buffer with
      | none => simp [voprf_point_from_bytes, VOPRF_ERROR_NULL_ARG]
      | some buffer =>
        simp only [voprf_point_from_bytes]
        repeat apply catch_mayThrow_frame
        simp [VOPRF_CATCH, VOPRF_SUCCESS]
  · intro p1 p2 equal
    cases p1 with
    | none => simp [voprf_point_equal, VOPRF_ERROR_NULL_ARG]
    | some p1 =>
      cases p2 with
      | none => simp [voprf_point_equal, VOPRF_ERROR_NULL_ARG]
      | some p2 =>
        cases equal with
        | none => simp [voprf_point_equal, VOPRF_ERROR_NULL_ARG]
        | some equal =>
          simp only [voprf_point_equal]
          repeat apply catch_mayThrow_frame
          simp [VOPRF_CATCH, VOPRF_SUCCESS]
  · intro draw msg len bf bp
    cases msg with
    | none => simp [voprf_blind, VOPRF_ERROR_NULL_ARG]
    | some msg =>
      cases bf with
      | none => simp [voprf_blind, VOPRF_ERROR_NULL_ARG]
      | some bf =>
        cases bp with
        | none => simp [voprf_blind, VOPRF_ERROR_NULL_ARG]
        | some bp =>
          simp only [voprf_blind]
          repeat apply catch_mayThrow_frame
          simp [VOPRF_CATCH, VOPRF_SUCCESS]
  · intro draw msg len bf bp
    cases msg with
    | none => simp [voprf_blind]
    | some msg =>
      cases bf with
      | none => simp [voprf_blind]
      | some bf =>
        cases bp with
        | none => simp [voprf_blind]
        | some bp =>
          simp only [voprf_blind]
          repeat apply catch_mayThrow_or _ _ _ (fun res => ∃ r x, res = (0, some (some r), some (some x)))
          exact Or.inr ⟨_, _, rfl⟩
  · intro sk blinded ev
    cases sk with
    | none => simp [voprf_evaluate, VOPRF_ERROR_NULL_ARG]
    | some sk =>
      cases blinded with
      | none => simp [voprf_evaluate, VOPRF_ERROR_NULL_ARG]
      | some blinded =>
        cases ev with
        | none => simp [voprf_evaluate, VOPRF_ERROR_NULL_ARG]
        | some ev =>
          simp only [voprf_evaluate]
          repeat apply catch_mayThrow_frame
          simp [VOPRF_CATCH, VOPRF_SUCCESS]
  · intro ev bf out
    cases ev with
    | none => simp [voprf_unblind, VOPRF_ERROR_NULL_ARG]
    | some ev =>
      cases bf with
      | none => simp [voprf_unblind, VOPRF_ERROR_NULL_ARG]
      | some bf =>
        cases out with
        | none => simp [voprf_unblind, VOPRF_ERROR_NULL_ARG]
        | some out =>
          simp only [voprf_unblind]
          split
          · rename_i e _
            cases e <;> simp [VOPRF_CATCH, VOPRF_SUCCESS]
          · repeat apply catch_mayThrow_frame
            simp [VOPRF_CATCH, VOPRF_SUCCESS]
  · intro pk msg len out res
    cases pk with
    | none => simp [voprf_verify, VOPRF_ERROR_NULL_ARG]
    | some pk =>
      cases msg with
      | none => simp [voprf_verify, VOPRF_ERROR_NULL_ARG]
      | some msg =>
        cases out with
        | none => simp [voprf_verify, VOPRF_ERROR_NULL_ARG]
        | some out =>
          cases res with
          | none => simp [voprf_verify, VOPRF_ERROR_NULL_ARG]
          | some res =>
            simp only [voprf_verify]
            repeat apply catch_mayThrow_frame
            simp [VOPRF_CATCH, VOPRF_SUCCESS]

/-- C9 at concrete failing calls (toy library): the second `new` of
`voprf_blind` fails after the first succeeded, and the map to the curve inside
`HashToPoint` raises another exception; the calls return `VOPRF_ERROR_MALLOC`
and `VOPRF_ERROR_CPP_EXCEPTION` and both output locations still hold `NULL`. -/
theorem voprf_failure_leaves_outputs_witness :
    voprf_blind toyMcl (faultAt 5 .bad_alloc) (3 : Fin 5) (some [7]) 1 (some none) (some none)
        = (VOPRF_ERROR_MALLOC, some none, some none) ∧
      voprf_blind toyMcl (faultAt 2 .other) (3 : Fin 5) (some [7]) 1 (some none) (some none)
        = (VOPRF_ERROR_CPP_EXCEPTION, some none, some none) ∧
      (voprf_blind toyMcl (faultAt 5 .bad_alloc) (3 : Fin 5) (some [7]) 1 (some none)
        (some none)).2 = (some none, some none) :=
  ⟨by decide, by decide,
    (voprf_failure_leaves_outputs toyMcl (faultAt 5 .bad_alloc)).2.2.2.2.2.2.2.2.2.2.2.2.1
      (3 : Fin 5) (some [7]) 1 (some none) (some none) (by decide)⟩

/-! ## C10: the public key of a secret key -/

/-- C10: for every secret key `sk`, `SecretKey::GetVerificationKey` is
`sk·Generator` with `Generator = VerificationKey::GetBase()`, the `G2` element
`mapToG2` gives for the seed 1; `voprf_private_key_get_public_key` either
fails on a raising step and stores nothing or returns 0 and stores exactly that
key, so two successful derivations from the same `sk` store equal keys; and
`voprf_verify` pairs the output point with the same element `GetBase()`. -/
theorem voprf_public_key_is_sk_times_base (M : Mcl) (sk : SecretKey M) :
    VerificationKey.GetBase M = M.mapToG2 1 ∧
    sk.GetVerificationKey = ⟨M.g2Mul (VerificationKey.GetBase M) sk.s⟩ ∧
    (∀ (fault : Faults) (old : voprf_public_key_t M), (∀ k, fault k = none) →
      voprf_private_key_get_public_key M fault (some sk) (some old)
        = (VOPRF_SUCCESS, some (some ⟨M.g2Mul (M.mapToG2 1) sk.s⟩))) ∧
    (∀ (fault : Faults) (old : voprf_public_key_t M),
      (voprf_private_key_get_public_key M fault (some sk) (some old)).2 = some old ∨
      voprf_private_key_get_public_key M fault (some sk) (some old)
        = (VOPRF_SUCCESS, some (some ⟨M.g2Mul (M.mapToG2 1) sk.s⟩))) ∧
    (∀ (fault1 fault2 : Faults) (old1 old2 : voprf_public_key_t M)
        (pk1 pk2 : voprf_public_key_t M),
      voprf_private_key_get_public_key M fault1 (some sk) (some old1)
        = (VOPRF_SUCCESS, some pk1) →
      voprf_private_key_get_public_key M fault2 (some sk) (some old2)
        = (VOPRF_SUCCESS, some pk2) →
      pk1 = pk2 ∧ pk1 = some sk.GetVerificationKey) ∧
    (∀ (fault : Faults) (pk : VerificationKey M) (mem : Bytes) (msg_len : Nat) (out : Point M)
        (res0 : Bool), (∀ k, fault k = none) →
      voprf_verify M fault (some pk) (some mem) msg_len (some out) (some res0)
        = (VOPRF_SUCCESS,
            some (decide (M.pairing (Point.HashToPoint M (mem.take msg_len)).v pk.v
              = M.pairing out.v (VerificationKey.GetBase M))))) := by
  have key : ∀ (fault : Faults) (old : voprf_public_key_t M),
      (voprf_private_key_get_public_key M fault (some sk) (some old)).1 ≠ 0 ∨
      voprf_private_key_get_public_key M fault (some sk) (some old)
        = (VOPRF_SUCCESS, some (some sk.GetVerificationKey)) := by
    intro fault old
    cases h0 : fault 0 with
    | some e =>
      left
      cases e <;>
        simp [voprf_private_key_get_public_key, VOPRF_CATCH, mayThrow, h0,
          VOPRF_ERROR_MALLOC, VOPRF_ERROR_CPP_EXCEPTION]
    | none =>
      cases h1 : fault 1 with
      | some e =>
        left
        cases e <;>
          simp [voprf_private_key_get_public_key, VOPRF_CATCH, mayThrow, h0, h1,
            VOPRF_ERROR_MALLOC, VOPRF_ERROR_CPP_EXCEPTION]
      | none =>
        right
        simp [voprf_private_key_get_public_key, VOPRF_CATCH, mayThrow, h0, h1]
  refine ⟨rfl, rfl, ?_, ?_, ?_, ?_⟩
  · intro fault old hf
    simp [voprf_private_key_get_public_key, VOPRF_CATCH, mayThrow, hf,
      SecretKey.GetVerificationKey, VerificationKey.GetBase]
  · intro fault old
    simp only [voprf_private_key_get_public_key]
    repeat
      apply catch_mayThrow_or _ _ _
        (fun res : Int × Option (voprf_public_key_t M) =>
          res = (VOPRF_SUCCESS, some (some ⟨M.g2Mul (M.mapToG2 1) sk.s⟩)))
    exact Or.inr rfl
  · intro fault1 fault2 old1 old2 pk1 pk2 e1 e2
    rcases key fault1 old1 with h1 | h1
    · rw [e1] at h1; exact absurd rfl h1
    · rcases key fault2 old2 with h2 | h2
      · rw [e2] at h2; exact absurd rfl h2
      · rw [e1] at h1; rw [e2] at h2
        simp only [Prod.mk.injEq, Option.some.injEq, true_and] at h1 h2
        exact ⟨h1.trans h2.symm, h1⟩
  · intro fault pk mem msg_len out res0 hf
    simp [voprf_verify, VOPRF_CATCH, mayThrow, hf, Pairing.Pair, Point.GetG1,
      VerificationKey.GetG2]

/-- The key derived from the secret key 2 in the toy library, whose base point
is 2, is the `G2` element 4, on every successful call. -/
theorem voprf_public_key_toy :
    voprf_private_key_get_public_key toyMcl noFault (some ⟨(2 : Fin 5)⟩) (some none)
        = (VOPRF_SUCCESS, some (some ⟨(4 : Fin 5)⟩)) ∧
      voprf_private_key_get_public_key toyMcl noFault (some ⟨(2 : Fin 5)⟩)
          (some (some ⟨(0 : Fin 5)⟩))
        = (VOPRF_SUCCESS, some (some ⟨(4 : Fin 5)⟩)) := by
  decide

/-! ## C11: the empty message -/

/-- C11, as the code has it: with `msg_len = 0`, a NON-NULL message pointer and
non-NULL output arguments, `voprf_blind` (no step raising) returns 0 with
`blinded = Mul(HashToPoint(""), r)`, and `voprf_verify` with non-NULL arguments
returns 0 and stores the outcome of the check for the empty message; both
follow the rule that holds for a message of any length. -/
theorem voprf_empty_message (M : Mcl) (fault faultV : Faults) (draw : M.Fr) (mem : Bytes)
    (bf0 : voprf_private_key_t M) (bp0 : voprf_point_t M)
    (pk : VerificationKey M) (out : Point M) (res0 : Bool)
    (hf : ∀ k, fault k = none) (hV : ∀ k, faultV k = none) :
    voprf_blind M fault draw (some mem) 0 (some bf0) (some bp0)
        = (VOPRF_SUCCESS, some (some ⟨draw⟩),
            some (some (Point.Mul (Point.HashToPoint M []) ⟨draw⟩))) ∧
      voprf_verify M faultV (some pk) (some mem) 0 (some out) (some res0)
        = (VOPRF_SUCCESS,
            some (decide (Pairing.Pair (Point.HashToPoint M []) pk
              = Pairing.Pair out ⟨VerificationKey.GetBase M⟩))) ∧
      (∀ msg_len : Nat,
        voprf_blind M fault draw (some mem) msg_len (some bf0) (some bp0)
          = (VOPRF_SUCCESS, some (some ⟨draw⟩),
              some (some (Point.Mul (Point.HashToPoint M (mem.take msg_len)) ⟨draw⟩))) ∧
        voprf_verify M faultV (some pk) (some mem) msg_len (some out) (some res0)
          = (VOPRF_SUCCESS,
              some (decide (Pairing.Pair (Point.HashToPoint M (mem.take msg_len)) pk
                = Pairing.Pair out ⟨VerificationKey.GetBase M⟩)))) := by
  refine ⟨?_, ?_, fun msg_len => ⟨?_, ?_⟩⟩
  · simp [voprf_blind, VOPRF_CATCH, mayThrow, hf, SecretKey.Keygen]
  · simp [voprf_verify, VOPRF_CATCH, mayThrow, hV]
  · simp [voprf_blind, VOPRF_CATCH, mayThrow, hf, SecretKey.Keygen]
  · simp [voprf_verify, VOPRF_CATCH, mayThrow, hV]

/-- C11 witness: the theorem at the toy library, draw 3, key 4, output point 2,
with memory `[7]` at the message pointer. -/
theorem voprf_empty_message_witness :
    voprf_blind toyMcl noFault (3 : Fin 5) (some [7]) 0 (some none) (some none)
        = (VOPRF_SUCCESS, some (some ⟨(3 : Fin 5)⟩),
            some (some (Point.Mul (Point.HashToPoint toyMcl []) ⟨(3 : Fin 5)⟩))) ∧
      voprf_verify toyMcl noFault (some ⟨(4 : Fin 5)⟩) (some [7]) 0 (some ⟨(2 : Fin 5)⟩)
          (some false)
        = (VOPRF_SUCCESS,
            some (decide (Pairing.Pair (Point.HashToPoint toyMcl []) ⟨(4 : Fin 5)⟩
              = Pairing.Pair ⟨(2 : Fin 5)⟩ ⟨VerificationKey.GetBase toyMcl⟩))) :=
  ⟨(voprf_empty_message toyMcl noFault noFault (3 : Fin 5) [7] none none ⟨(4 : Fin 5)⟩
      ⟨(2 : Fin 5)⟩ false (fun _ => rfl) (fun _ => rfl)).1,
    (voprf_empty_message toyMcl noFault noFault (3 : Fin 5) [7] none none ⟨(4 : Fin 5)⟩
      ⟨(2 : Fin 5)⟩ false (fun _ => rfl) (fun _ => rfl)).2.1⟩

/-- C11 counterexample: the empty message given as a `NULL` pointer with
`msg_len = 0` and valid other arguments (toy library): `voprf_blind` and
`voprf_verify` return `VOPRF_ERROR_NULL_ARG`, store nothing and evaluate no
check. -/
theorem voprf_empty_message_null_pointer :
    voprf_blind toyMcl noFault (3 : Fin 5) none 0 (some none) (some none)
        = (VOPRF_ERROR_NULL_ARG, some none, some none) ∧
      voprf_verify toyMcl noFault (some ⟨(4 : Fin 5)⟩) none 0 (some ⟨(2 : Fin 5)⟩)
          (some false)
        = (VOPRF_ERROR_NULL_ARG, some false) := by
  decide

/-! ## C12: calls made before `voprf_init` -/

/-- C13: every entry point that returns a status and takes pointer arguments
returns `VOPRF_ERROR_NULL_ARG` (-1) when any of its pointer arguments, input or
output, is `NULL` (the message pointer of `voprf_blind` and `voprf_verify`
included, whatever the length), with every output location as it was and
whatever the steps of the block, the random draw and the library would give,
i.e. before any computation; with all pointer arguments non-`NULL` it never
returns `VOPRF_ERROR_NULL_ARG`. -/
theorem voprf_null_arg (M : Mcl) (fault : Faults) :
    VOPRF_ERROR_NULL_ARG = -1 ∧
    (∀ draw key, key = none →
      voprf_private_key_generate M fault draw key = (VOPRF_ERROR_NULL_ARG, key)) ∧
    (∀ draw key, key ≠ none →
      (voprf_private_key_generate M fault draw key).1 ≠ VOPRF_ERROR_NULL_ARG) ∧
    (∀ sk pk, sk = none ∨ pk = none →
      voprf_private_key_get_public_key M fault sk pk = (VOPRF_ERROR_NULL_ARG, pk)) ∧
    (∀ sk pk, sk ≠ none → pk ≠ none →
      (voprf_private_key_get_public_key M fault sk pk).1 ≠ VOPRF_ERROR_NULL_ARG) ∧
    (∀ key size, key = none ∨ size = none →
      voprf_private_key_get_byte_size M fault key size = (VOPRF_ERROR_NULL_ARG, size)) ∧
    (∀ key size, key ≠ none → size ≠ none →
      (voprf_private_key_get_byte_size M fault key size).1 ≠ VOPRF_ERROR_NULL_ARG) ∧
    (∀ key buffer len, key = none ∨ buffer = none →
      voprf_private_key_to_bytes M fault key buffer len = (VOPRF_ERROR_NULL_ARG, buffer)) ∧
    (∀ key buffer len, key ≠ none → buffer ≠ none →
      (voprf_private_key_to_bytes M fault key buffer len).1 ≠ VOPRF_ERROR_NULL_ARG) ∧
    (∀ key buffer len, key = none ∨ buffer = none →
      voprf_private_key_from_bytes M fault key buffer len = (VOPRF_ERROR_NULL_ARG, key)) ∧
    (∀ key buffer len, key ≠ none → buffer ≠ none →
      (voprf_private_key_from_bytes M fault key buffer len).1 ≠ VOPRF_ERROR_NULL_ARG) ∧
    (∀ key size, key = none ∨ size = none →
      voprf_public_key_get_byte_size M fault key size = (VOPRF_ERROR_NULL_ARG, size)) ∧
    (∀ key size, key ≠ none → size ≠ none →
      (voprf_public_key_get_byte_size M fault key size).1 ≠ VOPRF_ERROR_NULL_ARG) ∧
    (∀ key buffer len, key = none ∨ buffer = none →
      voprf_public_key_to_bytes M fault key buffer len = (VOPRF_ERROR_NULL_ARG, buffer)) ∧
    (∀ key buffer len, key ≠ none → buffer ≠ none →
      (voprf_public_key_to_bytes M fault key buffer len).1 ≠ VOPRF_ERROR_NULL_ARG) ∧
    (∀ key buffer len, key = none ∨ buffer = none →
      voprf_public_key_from_bytes M fault key buffer len = (VOPRF_ERROR_NULL_ARG, key)) ∧
    (∀ key buffer len, key ≠ none → buffer ≠ none →
      (voprf_public_key_from_bytes M fault key buffer len).1 ≠ VOPRF_ERROR_NULL_ARG) ∧
    (∀ point size, point = none ∨ size = none →
      voprf_point_get_byte_size M fault point size = (VOPRF_ERROR_NULL_ARG, size)) ∧
    (∀ point size, point ≠ none → size ≠ none →
      (voprf_point_get_byte_size M fault point size).1 ≠ VOPRF_ERROR_NULL_ARG) ∧
    (∀ point buffer len, point = none ∨ buffer = none →
      voprf_point_to_bytes M fault point buffer len = (VOPRF_ERROR_NULL_ARG, buffer)) ∧
    (∀ point buffer len, point ≠ none → buffer ≠ none →
      (voprf_point_to_bytes M fault point buffer len).1 ≠ VOPRF_ERROR_NULL_ARG) ∧
    (∀ point buffer len, point = none ∨ buffer = none →
      voprf_point_from_bytes M fault point buffer len = (VOPRF_ERROR_NULL_ARG, point)) ∧
    (∀ point buffer len, point ≠ none → buffer ≠ none →
      (voprf_point_from_bytes M fault point buffer len).1 ≠ VOPRF_ERROR_NULL_ARG) ∧
    (∀ p1 p2 equal, p1 = none ∨ p2 = none ∨ equal = none →
      voprf_point_equal M fault p1 p2 equal = (VOPRF_ERROR_NULL_ARG, equal)) ∧
    (∀ p1 p2 equal, p1 ≠ none → p2 ≠ none → equal ≠ none →
      (voprf_point_equal M fault p1 p2 equal).1 ≠ VOPRF_ERROR_NULL_ARG) ∧
    (∀ draw msg len bf bp, msg = none ∨ bf = none ∨ bp = none →
      voprf_blind M fault draw msg len bf bp = (VOPRF_ERROR_NULL_ARG, bf, bp)) ∧
    (∀ draw msg len bf bp, msg ≠ none → bf ≠ none → bp ≠ none →
      (voprf_blind M fault draw msg len bf bp).1 ≠ VOPRF_ERROR_NULL_ARG) ∧
    (∀ sk blinded ev, sk = none ∨ blinded = none ∨ ev = none →
      voprf_evaluate M fault sk blinded ev = (VOPRF_ERROR_NULL_ARG, ev)) ∧
    (∀ sk blinded ev, sk ≠ none → blinded ≠ none → ev ≠ none →
      (voprf_evaluate M fault sk blinded ev).1 ≠ VOPRF_ERROR_NULL_ARG) ∧
    (∀ ev bf out, ev = none ∨ bf = none ∨ out = none →
      voprf_unblind M fault ev bf out = (VOPRF_ERROR_NULL_ARG, out)) ∧
    (∀ ev bf out, ev ≠ none → bf ≠ none → out ≠ none →
      (voprf_unblind M fault ev bf out).1 ≠ VOPRF_ERROR_NULL_ARG) ∧
    (∀ pk msg len out res, pk = none ∨ msg = none ∨ out = none ∨ res = none →
      voprf_verify M fault pk msg len out res = (VOPRF_ERROR_NULL_ARG, res)) ∧
    (∀ pk msg len out res, pk ≠ none → msg ≠ none → out ≠ none → res ≠ none →
      (voprf_verify M fault pk msg len out res).1 ≠ VOPRF_ERROR_NULL_ARG) := by
  refine ⟨rfl, ?_, ?_, ?_, ?_, ?_, ?_, ?_, ?_, ?_, ?_, ?_, ?_, ?_, ?_, ?_, ?_, ?_, ?_, ?_, ?_, ?_, ?_, ?_, ?_, ?_, ?_, ?_, ?_, ?_, ?_, ?_, ?_⟩
  · intro draw key h
    cases key <;> simp [voprf_private_key_generate] at h ⊢
  · intro draw key hkey
    obtain ⟨key, rfl⟩ := Option.ne_none_iff_exists'.mp hkey
    simp only [voprf_private_key_generate]
    repeat apply catch_mayThrow_ne _ _ _ _ (by decide) (by decide)
    simp [VOPRF_CATCH, VOPRF_ERROR_NULL_ARG, VOPRF_SUCCESS, VOPRF_ERROR_MALLOC,
      VOPRF_ERROR_CPP_EXCEPTION, VOPRF_ERROR_INVALID_BUFFER_SIZE]
  · intro sk pk h
    cases sk <;> cases pk <;> simp [voprf_private_key_get_public_key] at h ⊢
  · intro sk pk hsk hpk
    obtain ⟨sk, rfl⟩ := Option.ne_none_iff_exists'.mp hsk
    obtain ⟨pk, rfl⟩ := Option.ne_none_iff_exists'.mp hpk
    simp only [voprf_private_key_get_public_key]
    repeat apply catch_mayThrow_ne _ _ _ _ (by decide) (by decide)
    simp [VOPRF_CATCH, VOPRF_ERROR_NULL_ARG, VOPRF_SUCCESS, VOPRF_ERROR_MALLOC,
      VOPRF_ERROR_CPP_EXCEPTION, VOPRF_ERROR_INVALID_BUFFER_SIZE]
  · intro key size h
    cases key <;> cases size <;> simp [voprf_private_key_get_byte_size] at h ⊢
  · intro key size hkey hsize
    obtain ⟨key, rfl⟩ := Option.ne_none_iff_exists'.mp hkey
    obtain ⟨size, rfl⟩ := Option.ne_none_iff_exists'.mp hsize
    simp only [voprf_private_key_get_byte_size]
    repeat apply catch_mayThrow_ne _ _ _ _ (by decide) (by decide)
    simp [VOPRF_CATCH, VOPRF_ERROR_NULL_ARG, VOPRF_SUCCESS, VOPRF_ERROR_MALLOC,
      VOPRF_ERROR_CPP_EXCEPTION, VOPRF_ERROR_INVALID_BUFFER_SIZE]
  · intro key buffer len h
    cases key <;> cases buffer <;> simp [voprf_private_key_to_bytes] at h ⊢
  · intro key buffer len hkey hbuffer
    obtain ⟨key, rfl⟩ := Option.ne_none_iff_exists'.mp hkey
    obtain ⟨buffer, rfl⟩ := Option.ne_none_iff_exists'.mp hbuffer
    simp only [voprf_private_key_to_bytes]
    repeat apply catch_mayThrow_ne _ _ _ _ (by decide) (by decide)
    split <;> simp [VOPRF_CATCH, VOPRF_ERROR_NULL_ARG, VOPRF_SUCCESS, VOPRF_ERROR_MALLOC,
      VOPRF_ERROR_CPP_EXCEPTION, VOPRF_ERROR_INVALID_BUFFER_SIZE]
  · intro key buffer len h
    cases key <;> cases buffer <;> simp [voprf_private_key_from_bytes] at h ⊢
  · intro key buffer len hkey hbuffer
    obtain ⟨key, rfl⟩ := Option.ne_none_iff_exists'.mp hkey
    obtain ⟨buffer, rfl⟩ := Option.ne_none_iff_exists'.mp hbuffer
    simp only [voprf_private_key_from_bytes]
    repeat apply catch_mayThrow_ne _ _ _ _ (by decide) (by decide)
    simp [VOPRF_CATCH, VOPRF_ERROR_NULL_ARG, VOPRF_SUCCESS, VOPRF_ERROR_MALLOC,
      VOPRF_ERROR_CPP_EXCEPTION, VOPRF_ERROR_INVALID_BUFFER_SIZE]
  · intro key size h
    cases key <;> cases size <;> simp [voprf_public_key_get_byte_size] at h ⊢
  · intro key size hkey hsize
    obtain ⟨key, rfl⟩ := Option.ne_none_iff_exists'.mp hkey
    obtain ⟨size, rfl⟩ := Option.ne_none_iff_exists'.mp hsize
    simp only [voprf_public_key_get_byte_size]
    repeat apply catch_mayThrow_ne _ _ _ _ (by decide) (by decide)
    simp [VOPRF_CATCH, VOPRF_ERROR_NULL_ARG, VOPRF_SUCCESS, VOPRF_ERROR_MALLOC,
      VOPRF_ERROR_CPP_EXCEPTION, VOPRF_ERROR_INVALID_BUFFER_SIZE]
  · intro key buffer len h
    cases key <;> cases buffer <;> simp [voprf_public_key_to_bytes] at h ⊢
  · intro key buffer len hkey hbuffer
    obtain ⟨key, rfl⟩ := Option.ne_none_iff_exists'.mp hkey
    obtain ⟨buffer, rfl⟩ := Option.ne_none_iff_exists'.mp hbuffer
    simp only [voprf_public_key_to_bytes]
    repeat apply catch_mayThrow_ne _ _ _ _ (by decide) (by decide)
    split <;> simp [VOPRF_CATCH, VOPRF_ERROR_NULL_ARG, VOPRF_SUCCESS, VOPRF_ERROR_MALLOC,
      VOPRF_ERROR_CPP_EXCEPTION, VOPRF_ERROR_INVALID_BUFFER_SIZE]
  · intro key buffer len h
    cases key <;> cases buffer <;> simp [voprf_public_key_from_bytes] at h ⊢
  · intro key buffer len hkey hbuffer
    obtain ⟨key, rfl⟩ := Option.ne_none_iff_exists'.mp hkey
    obtain ⟨buffer, rfl⟩ := Option.ne_none_iff_exists'.mp hbuffer
    simp only [voprf_public_key_from_bytes]
    repeat apply catch_mayThrow_ne _ _ _ _ (by decide) (by decide)
    simp [VOPRF_CATCH, VOPRF_ERROR_NULL_ARG, VOPRF_SUCCESS, VOPRF_ERROR_MALLOC,
      VOPRF_ERROR_CPP_EXCEPTION, VOPRF_ERROR_INVALID_BUFFER_SIZE]
  · intro point size h
    cases point <;> cases size <;> simp [voprf_point_get_byte_size] at h ⊢
  · intro point size hpoint hsize
    obtain ⟨point, rfl⟩ := Option.ne_none_iff_exists'.mp hpoint
    obtain ⟨size, rfl⟩ := Option.ne_none_iff_exists'.mp hsize
    simp only [voprf_point_get_byte_size]
    repeat apply catch_mayThrow_ne _ _ _ _ (by decide) (by decide)
    simp [VOPRF_CATCH, VOPRF_ERROR_NULL_ARG, VOPRF_SUCCESS, VOPRF_ERROR_MALLOC,
      VOPRF_ERROR_CPP_EXCEPTION, VOPRF_ERROR_INVALID_BUFFER_SIZE]
  · intro point buffer len h
    cases point <;> cases buffer <;> simp [voprf_point_to_bytes] at h ⊢
  · intro point buffer len hpoint hbuffer
    obtain ⟨point, rfl⟩ := Option.ne_none_iff_exists'.mp hpoint
    obtain ⟨buffer, rfl⟩ := Option.ne_none_iff_exists'.mp hbuffer
    simp only [voprf_point_to_bytes]
    repeat apply catch_mayThrow_ne _ _ _ _ (by decide) (by decide)
    split <;> simp [VOPRF_CATCH, VOPRF_ERROR_NULL_ARG, VOPRF_SUCCESS, VOPRF_ERROR_MALLOC,
      VOPRF_ERROR_CPP_EXCEPTION, VOPRF_ERROR_INVALID_BUFFER_SIZE]
  · intro point buffer len h
    cases point <;> cases buffer <;> simp [voprf_point_from_bytes] at h ⊢
  · intro point buffer len hpoint hbuffer
    obtain ⟨point, rfl⟩ := Option.ne_none_iff_exists'.mp hpoint
    obtain ⟨buffer, rfl⟩ := Option.ne_none_iff_exists'.mp hbuffer
    simp only [voprf_point_from_bytes]
    repeat apply catch_mayThrow_ne _ _ _ _ (by decide) (by decide)
    simp [VOPRF_CATCH, VOPRF_ERROR_NULL_ARG, VOPRF_SUCCESS, VOPRF_ERROR_MALLOC,
      VOPRF_ERROR_CPP_EXCEPTION, VOPRF_ERROR_INVALID_BUFFER_SIZE]
  · intro p1 p2 equal h
    cases p1 <;> cases p2 <;> cases equal <;> simp [voprf_point_equal] at h ⊢
  · intro p1 p2 equal hp1 hp2 hequal
    obtain ⟨p1, rfl⟩ := Option.ne_none_iff_exists'.mp hp1
    obtain ⟨p2, rfl⟩ := Option.ne_none_iff_exists'.mp hp2
    obtain ⟨equal, rfl⟩ := Option.ne_none_iff_exists'.mp hequal
    simp only [voprf_point_equal]
    repeat apply catch_mayThrow_ne _ _ _ _ (by decide) (by decide)
    simp [VOPRF_CATCH, VOPRF_ERROR_NULL_ARG, VOPRF_SUCCESS, VOPRF_ERROR_MALLOC,
      VOPRF_ERROR_CPP_EXCEPTION, VOPRF_ERROR_INVALID_BUFFER_SIZE]
  · intro draw msg len bf bp h
    cases msg <;> cases bf <;> cases bp <;> simp [voprf_blind] at h ⊢
  · intro draw msg len bf bp hmsg hbf hbp
    obtain ⟨msg, rfl⟩ := Option.ne_none_iff_exists'.mp hmsg
    obtain ⟨bf, rfl⟩ := Option.ne_none_iff_exists'.mp hbf
    obtain ⟨bp, rfl⟩ := Option.ne_none_iff_exists'.mp hbp
    simp only [voprf_blind]
    repeat apply catch_mayThrow_ne _ _ _ _ (by decide) (by decide)
    simp [VOPRF_CATCH, VOPRF_ERROR_NULL_ARG, VOPRF_SUCCESS, VOPRF_ERROR_MALLOC,
      VOPRF_ERROR_CPP_EXCEPTION, VOPRF_ERROR_INVALID_BUFFER_SIZE]
  · intro sk blinded ev h
    cases sk <;> cases blinded <;> cases ev <;> simp [voprf_evaluate] at h ⊢
  · intro sk blinded ev hsk hblinded hev
    obtain ⟨sk, rfl⟩ := Option.ne_none_iff_exists'.mp hsk
    obtain ⟨blinded, rfl⟩ := Option.ne_none_iff_exists'.mp hblinded
    obtain ⟨ev, rfl⟩ := Option.ne_none_iff_exists'.mp hev
    simp only [voprf_evaluate]
    repeat apply catch_mayThrow_ne _ _ _ _ (by decide) (by decide)
    simp [VOPRF_CATCH, VOPRF_ERROR_NULL_ARG, VOPRF_SUCCESS, VOPRF_ERROR_MALLOC,
      VOPRF_ERROR_CPP_EXCEPTION, VOPRF_ERROR_INVALID_BUFFER_SIZE]
  · intro ev bf out h
    cases ev <;> cases bf <;> cases out <;> simp [voprf_unblind] at h ⊢
  · intro ev bf out hev hbf hout
    obtain ⟨ev, rfl⟩ := Option.ne_none_iff_exists'.mp hev
    obtain ⟨bf, rfl⟩ := Option.ne_none_iff_exists'.mp hbf
    obtain ⟨out, rfl⟩ := Option.ne_none_iff_exists'.mp hout
    simp only [voprf_unblind]
    split
    · rename_i e _
      cases e <;> simp [VOPRF_CATCH, VOPRF_ERROR_NULL_ARG, VOPRF_SUCCESS, VOPRF_ERROR_MALLOC,
      VOPRF_ERROR_CPP_EXCEPTION, VOPRF_ERROR_INVALID_BUFFER_SIZE]
    · repeat apply catch_mayThrow_ne _ _ _ _ (by decide) (by decide)
      simp [VOPRF_CATCH, VOPRF_ERROR_NULL_ARG, VOPRF_SUCCESS, VOPRF_ERROR_MALLOC,
      VOPRF_ERROR_CPP_EXCEPTION, VOPRF_ERROR_INVALID_BUFFER_SIZE]
  · intro pk msg len out res h
    cases pk <;> cases msg <;> cases out <;> cases res <;> simp [voprf_verify] at h ⊢
  · intro pk msg len out res hpk hmsg hout hres
    obtain ⟨pk, rfl⟩ := Option.ne_none_iff_exists'.mp hpk
    obtain ⟨msg, rfl⟩ := Option.ne_none_iff_exists'.mp hmsg
    obtain ⟨out, rfl⟩ := Option.ne_none_iff_exists'.mp hout
    obtain ⟨res, rfl⟩ := Option.ne_none_iff_exists'.mp hres
    simp only [voprf_verify]
    repeat apply catch_mayThrow_ne _ _ _ _ (by decide) (by decide)
    simp [VOPRF_CATCH, VOPRF_ERROR_NULL_ARG, VOPRF_SUCCESS, VOPRF_ERROR_MALLOC,
      VOPRF_ERROR_CPP_EXCEPTION, VOPRF_ERROR_INVALID_BUFFER_SIZE]

/-- C13 at concrete calls (toy library): `voprf_blind` with a `NULL` message
pointer and length 5 returns -1 and leaves both output locations alone; with
all pointers non-`NULL` and a failing `new` its status is not -1. -/
theorem voprf_null_arg_witness :
    voprf_blind toyMcl noFault (3 : Fin 5) none 5 (some none) (some none)
        = (VOPRF_ERROR_NULL_ARG, some none, some none) ∧
      (voprf_blind toyMcl (faultAt 5 .bad_alloc) (3 : Fin 5) (some [7]) 1 (some none)
        (some none)).1 ≠ VOPRF_ERROR_NULL_ARG :=
  ⟨(voprf_null_arg toyMcl noFault).2.2.2.2.2.2.2.2.2.2.2.2.2.2.2.2.2.2.2.2.2.2.2.2.2.1
      (3 : Fin 5) none 5 (some none) (some none) (Or.inl rfl),
    (voprf_null_arg toyMcl (faultAt 5 .bad_alloc)).2.2.2.2.2.2.2.2.2.2.2.2.2.2.2.2.2.2.2.2.2.2.2.2.2.2.1
      (3 : Fin 5) (some [7]) 1 (some none) (some none) (by simp) (by simp) (by simp)⟩

end Voprf
